import Mathlib

/-!
Verification development for the 3D scene-rendering subsystem
(point-cloud renderable pipeline, marker renderables and the render loop).

The definitions below are a shallow embedding of the TypeScript sources:

* `PointClouds` (renderables/PointClouds.ts): message routing, structural
  validation, field-reader resolution, color-domain scan, attribute
  population, per-frame pose resolution (`startFrame`);
* `Renderer.ts`: the animation-frame loop and the per-tick `frameHandler`;
* `RenderableMarker.ts` / `RenderableSphere.ts`: marker update logic.

JavaScript numbers are modelled as rationals (`ℚ`); byte buffers as
`List Nat`; `bigint` nanosecond timestamps as `Nat`; JS exceptions as an
explicit `Option JsError` channel threaded through state-returning
functions (mutations performed before a throw persist, as they do on the
real heap objects).

Modules of the repository that the sources import but that are not part
of the source tree themselves (`fieldReaders`, `colors`, `settings`,
`DynamicBufferGeometry`, `ros`, `transforms`, `updatePose`) are modelled
from the spec; each such definition carries a doc comment starting with
`Modelled from the spec:`.
-/

/-! ## Basic geometry and ROS message model -/

/-- Modelled from the spec: a 3-vector of JS numbers. -/
structure Vec3 where
  x : ℚ
  y : ℚ
  z : ℚ
deriving DecidableEq

/-- Modelled from the spec: a quaternion. -/
structure Quat where
  x : ℚ
  y : ℚ
  z : ℚ
  w : ℚ
deriving DecidableEq

/-- Modelled from the spec: a rigid pose (translation + rotation). -/
structure Pose where
  position : Vec3
  orientation : Quat
deriving DecidableEq

/-- Modelled from the spec (`transforms/geometry.ts` `makePose`):
the identity pose. -/
def makePose : Pose :=
  { position := ⟨0, 0, 0⟩, orientation := ⟨0, 0, 0, 1⟩ }

/-- Modelled from the spec (`ros.ts`): a ROS time stamp. -/
structure RosTime where
  sec : Nat
  nsec : Nat
deriving DecidableEq

/-- Modelled from the spec (`ros.ts`): a message header. -/
structure Header where
  stamp : RosTime
  frame_id : String
deriving DecidableEq

/-- Modelled from the spec (`ros.ts` `rosTimeToNanoSec`): the
"monotonic nanosecond-resolution integer" for a stamp. -/
def rosTimeToNanoSec (t : RosTime) : Nat :=
  t.sec * 1000000000 + t.nsec

/-- An RGBA color with components as JS numbers. -/
structure Rgba where
  r : ℚ
  g : ℚ
  b : ℚ
  a : ℚ
deriving DecidableEq

/-- Modelled from the spec (`color.ts` `rgbaEqual`, imported by
`RenderableSphere.ts`): componentwise equality of two RGBA colors. -/
def rgbaEqual (x y : Rgba) : Bool :=
  x.r == y.r && x.g == y.g && x.b == y.b && x.a == y.a

/-! ## PointCloud2 message model -/

/-- Modelled from the spec (`ros.ts` `PointFieldType`): the primitive
type tag of a point field.  `UNKNOWN n` stands for any other numeric
datatype code, which the reader factory does not recognize. -/
inductive PointFieldType where
  | INT8
  | UINT8
  | INT16
  | UINT16
  | INT32
  | UINT32
  | FLOAT32
  | FLOAT64
  | UNKNOWN (code : Nat)
deriving DecidableEq

/-- Source `pointFieldTypeName`: `PointFieldType[type]` with a fallback
to the numeric code. -/
def pointFieldTypeName : PointFieldType → String
  | .INT8 => "INT8"
  | .UINT8 => "UINT8"
  | .INT16 => "INT16"
  | .UINT16 => "UINT16"
  | .INT32 => "INT32"
  | .UINT32 => "UINT32"
  | .FLOAT32 => "FLOAT32"
  | .FLOAT64 => "FLOAT64"
  | .UNKNOWN code => toString code

/-- A PointCloud2 field descriptor: `{name, offset, datatype, count}`. -/
structure PointField where
  name : String
  offset : Nat
  datatype : PointFieldType
  count : Nat
deriving DecidableEq

/-- A PointCloud2 message.  `data` is the raw byte payload (each entry a
byte value). -/
structure PointCloud2 where
  header : Header
  height : Nat
  width : Nat
  fields : List PointField
  is_bigendian : Bool
  point_step : Nat
  row_step : Nat
  data : List Nat
deriving DecidableEq

/-! ## Field readers

Modelled from the spec (`pointClouds/fieldReaders.ts`): "bind a typed
byte-reader function for whichever of x/y/z are present"; "byte decoding
honors each field's declared primitive type and the container's
little-endian assumption".  A reader takes the payload and a point's
byte offset and returns the decoded value. -/

/-- A bound typed reader: payload bytes and point offset to value. -/
abbrev FieldReader : Type := List Nat → Nat → ℚ

/-- Byte access into the payload (reads within bounds in all uses that
passed validation; out-of-range reads give 0). -/
def byteAt (data : List Nat) (i : Nat) : Nat :=
  data.getD i 0

/-- Little-endian read of `n` bytes starting at `start`. -/
def readLE (data : List Nat) (start : Nat) : Nat → Nat
  | 0 => 0
  | n + 1 => byteAt data start + 256 * readLE data (start + 1) n

/-- Two's-complement interpretation of an unsigned `bits`-bit value. -/
def toSigned (v : Nat) (bits : Nat) : ℤ :=
  if v < 2 ^ (bits - 1) then (v : ℤ) else (v : ℤ) - 2 ^ bits

/-- Modelled from the spec: IEEE-754 binary32 little-endian decode of a
32-bit pattern to its exact rational value.  Non-finite patterns
(exponent 255, i.e. NaN and the infinities) are outside the model and
decode to 0. -/
def decodeFloat32 (bits : Nat) : ℚ :=
  let b : Nat := bits % 2 ^ 32
  let sign : Nat := b / 2 ^ 31
  let expo : Nat := (b / 2 ^ 23) % 2 ^ 8
  let mant : Nat := b % 2 ^ 23
  let mag : ℚ :=
    if expo = 0 then (mant : ℚ) * (2 : ℚ) ^ (-(149 : ℤ))
    else if expo = 255 then 0
    else ((2 ^ 23 + mant : Nat) : ℚ) * (2 : ℚ) ^ ((expo : ℤ) - 150)
  if sign = 1 then -mag else mag

/-- Modelled from the spec: IEEE-754 binary64 little-endian decode,
with the same treatment of non-finite patterns as `decodeFloat32`. -/
def decodeFloat64 (bits : Nat) : ℚ :=
  let b : Nat := bits % 2 ^ 64
  let sign : Nat := b / 2 ^ 63
  let expo : Nat := (b / 2 ^ 52) % 2 ^ 11
  let mant : Nat := b % 2 ^ 52
  let mag : ℚ :=
    if expo = 0 then (mant : ℚ) * (2 : ℚ) ^ (-(1074 : ℤ))
    else if expo = 2047 then 0
    else ((2 ^ 52 + mant : Nat) : ℚ) * (2 : ℚ) ^ ((expo : ℤ) - 1075)
  if sign = 1 then -mag else mag

/-- Modelled from the spec: the byte width of each recognized primitive
type; `none` for unrecognized datatype codes. -/
def fieldTypeWidth : PointFieldType → Option Nat
  | .INT8 => some 1
  | .UINT8 => some 1
  | .INT16 => some 2
  | .UINT16 => some 2
  | .INT32 => some 4
  | .UINT32 => some 4
  | .FLOAT32 => some 4
  | .FLOAT64 => some 8
  | .UNKNOWN _ => none

/-- Modelled from the spec: the typed little-endian reader for a
datatype at a fixed byte offset within a point record. -/
def makeReader (dt : PointFieldType) (off : Nat) : FieldReader :=
  fun data p =>
    match dt with
    | .INT8 => ((toSigned (readLE data (p + off) 1) 8 : ℤ) : ℚ)
    | .UINT8 => (readLE data (p + off) 1 : ℚ)
    | .INT16 => ((toSigned (readLE data (p + off) 2) 16 : ℤ) : ℚ)
    | .UINT16 => (readLE data (p + off) 2 : ℚ)
    | .INT32 => ((toSigned (readLE data (p + off) 4) 32 : ℤ) : ℚ)
    | .UINT32 => (readLE data (p + off) 4 : ℚ)
    | .FLOAT32 => decodeFloat32 (readLE data (p + off) 4)
    | .FLOAT64 => decodeFloat64 (readLE data (p + off) 8)
    | .UNKNOWN _ => 0

/-- Modelled from the spec (`fieldReaders.ts` `getReader`): bind a typed
reader for a field, or `none` when the datatype is unrecognized or the
field does not fit inside one point record (`offset + size > stride`). -/
def getReader (field : PointField) (stride : Nat) : Option FieldReader :=
  match fieldTypeWidth field.datatype with
  | none => none
  | some w => if field.offset + w ≤ stride then some (makeReader field.datatype field.offset) else none

/-- Source `zeroReader`: a reader that always returns 0. -/
def zeroReader : FieldReader := fun _ _ => 0

/-! ## Point-cloud settings -/

/-- Modelled from the spec (`pointClouds/settings.ts`
`PointCloudColorMode`). -/
inductive PointCloudColorMode where
  | Flat
  | Gradient
  | Rainbow
  | Turbo
  | Rgb
  | Rgba
deriving DecidableEq

/-- Modelled from the spec (`pointClouds/settings.ts`
`PointCloudSettings`).  `colorField`, `minValue` and `maxValue` are
optional members (JS `undefined` is `none`). -/
structure PointCloudSettings where
  pointSize : ℚ
  pointShape : String
  decayTime : ℚ
  colorMode : PointCloudColorMode
  colorField : Option String
  rgbByteOrder : String
  flatColor : Rgba
  minColor : Rgba
  maxColor : Rgba
  minValue : Option ℚ
  maxValue : Option ℚ
deriving DecidableEq

/-- The settings defaults installed by `addPointCloud2Message` when a
topic is first seen (DEFAULT_POINT_SIZE = 1.5, shape "circle",
decayTime 0, colorMode Flat, rgbByteOrder "rgba", flat white, min blue,
max red, no pinned range). -/
def defaultPointCloudSettings : PointCloudSettings where
  pointSize := 3 / 2
  pointShape := "circle"
  decayTime := 0
  colorMode := .Flat
  colorField := none
  rgbByteOrder := "rgba"
  flatColor := ⟨1, 1, 1, 1⟩
  minColor := ⟨0, 0, 1, 1⟩
  maxColor := ⟨1, 0, 0, 1⟩
  minValue := none
  maxValue := none

/-! ## Color field auto-selection (source `autoSelectColorField`) -/

/-- Source `COLOR_FIELDS`: recognized composite color field names. -/
def COLOR_FIELDS : List String := ["rgb", "rgba", "bgr", "bgra", "abgr", "color"]

/-- Source `INTENSITY_FIELDS`: recognized intensity field names. -/
def INTENSITY_FIELDS : List String := ["intensity", "i"]

/-- Source `DEFAULT_COLOR_MODE`. -/
def DEFAULT_COLOR_MODE : PointCloudColorMode := .Turbo

/-- First loop of `autoSelectColorField`: find the first field whose
name is in `COLOR_FIELDS` and apply the `switch` on its name (the
`default:` arm is shared with `case "rgba":`, so "color" maps to
Rgba/"rgba"). -/
def selectComposite (s : PointCloudSettings) : List PointField → Option PointCloudSettings
  | [] => none
  | f :: rest =>
    if COLOR_FIELDS.contains f.name then
      let s1 := { s with colorField := some f.name }
      some (match f.name with
        | "rgb" => { s1 with colorMode := .Rgb, rgbByteOrder := "rgba" }
        | "bgr" => { s1 with colorMode := .Rgb, rgbByteOrder := "bgra" }
        | "bgra" => { s1 with colorMode := .Rgba, rgbByteOrder := "bgra" }
        | "abgr" => { s1 with colorMode := .Rgba, rgbByteOrder := "abgr" }
        | _ => { s1 with colorMode := .Rgba, rgbByteOrder := "rgba" })
    else selectComposite s rest

/-- Second loop of `autoSelectColorField`: first field whose name is in
`INTENSITY_FIELDS`, selected with the default color mode. -/
def selectIntensity (s : PointCloudSettings) : List PointField → Option PointCloudSettings
  | [] => none
  | f :: rest =>
    if INTENSITY_FIELDS.contains f.name then
      some { s with colorField := some f.name, colorMode := DEFAULT_COLOR_MODE }
    else selectIntensity s rest

/-- Source `autoSelectColorField`: composite color field first, then
intensity field, then the first declared field; no change when the
message has no fields. -/
def autoSelectColorField (s : PointCloudSettings) (pc : PointCloud2) : PointCloudSettings :=
  match selectComposite s pc.fields with
  | some s1 => s1
  | none =>
    match selectIntensity s pc.fields with
    | some s1 => s1
    | none =>
      match pc.fields with
      | [] => s
      | f :: _ => { s with colorField := some f.name, colorMode := DEFAULT_COLOR_MODE }

/-! ## Color domain scan and color conversion -/

/-- JS numbers appearing in the min/max scan: the accumulators start at
`Number.POSITIVE_INFINITY` / `NEGATIVE_INFINITY`, so the scan state
lives in the extension of `ℚ` by the two infinities. -/
inductive XRat where
  | negInf
  | fin (q : ℚ)
  | posInf
deriving DecidableEq

/-- JS `Math.min` on the scan values. -/
def jsMin : XRat → XRat → XRat
  | .posInf, y => y
  | x, .posInf => x
  | .negInf, _ => .negInf
  | _, .negInf => .negInf
  | .fin a, .fin b => .fin (min a b)

/-- JS `Math.max` on the scan values. -/
def jsMax : XRat → XRat → XRat
  | .negInf, y => y
  | x, .negInf => x
  | .posInf, _ => .posInf
  | _, .posInf => .posInf
  | .fin a, .fin b => .fin (max a b)

/-- The min/max scan loop of `_updatePointCloudRenderable`
(`for i < pointCount: min/max with colorReader(view, i*point_step)`),
with `f i` the decoded color value of point `i`. -/
def scanMinMax (f : Nat → ℚ) : Nat → XRat × XRat → XRat × XRat
  | 0, acc => acc
  | n + 1, acc =>
    let acc1 := scanMinMax f n acc
    (jsMin acc1.1 (.fin (f n)), jsMax acc1.2 (.fin (f n)))

/-- The color-domain computation of `_updatePointCloudRenderable`
(lines: `minColorValue = settings.minValue ?? +∞` ... down to the final
`?? minColorValue` overrides): scans all points when either bound is
unpinned; a pinned bound overrides the scanned one. -/
def computeColorDomain (settings : PointCloudSettings) (colorReader : FieldReader)
    (data : List Nat) (step count : Nat) : XRat × XRat :=
  let minC : XRat := match settings.minValue with | some q => .fin q | none => .posInf
  let maxC : XRat := match settings.maxValue with | some q => .fin q | none => .negInf
  if settings.minValue.isNone || settings.maxValue.isNone then
    let r := scanMinMax (fun i => colorReader data (i * step)) count (minC, maxC)
    (match settings.minValue with | some q => .fin q | none => r.1,
     match settings.maxValue with | some q => .fin q | none => r.2)
  else
    (minC, maxC)

/-- Clamp a value into [0, 1]. -/
def clamp01 (t : ℚ) : ℚ := max 0 (min 1 t)

/-- Modelled from the spec: normalized position of a value inside the
computed color domain (used by the gradient-family converters). -/
def normalizedValue (minV maxV : XRat) (v : ℚ) : ℚ :=
  match minV, maxV with
  | .fin a, .fin b => if b ≠ a then clamp01 ((v - a) / (b - a)) else 0
  | _, _ => 0

/-- Linear blend of two colors. -/
def lerpColor (c d : Rgba) (t : ℚ) : Rgba :=
  ⟨c.r + (d.r - c.r) * t, c.g + (d.g - c.g) * t, c.b + (d.b - c.b) * t, c.a + (d.a - c.a) * t⟩

/-- Modelled from the spec: split a packed 32-bit color value into four
bytes (most significant first). -/
def unpackChannels (v : ℚ) : Nat × Nat × Nat × Nat :=
  let n := (⌊v⌋).toNat % 2 ^ 32
  (n / 2 ^ 24 % 256, n / 2 ^ 16 % 256, n / 2 ^ 8 % 256, n % 256)

/-- Modelled from the spec (`pointClouds/colors.ts` `getColorConverter`):
the converter for the active color mode.  The exact rainbow/turbo
palette formulas are unspecified in the spec; they are modelled as fixed
functions of the normalized value.  No claim depends on the palette. -/
def getColorConverter (s : PointCloudSettings) (minV maxV : XRat) : ℚ → Rgba :=
  match s.colorMode with
  | .Flat => fun _ => s.flatColor
  | .Gradient => fun v => lerpColor s.minColor s.maxColor (normalizedValue minV maxV v)
  | .Rainbow => fun v =>
      let t := normalizedValue minV maxV v
      ⟨1 - t, t, min t (1 - t), 1⟩
  | .Turbo => fun v =>
      let t := normalizedValue minV maxV v
      ⟨t, 1 - t, min t (1 - t), 1⟩
  | .Rgb => fun v =>
      let c := unpackChannels v
      ⟨(c.1 : ℚ) / 255, (c.2.1 : ℚ) / 255, (c.2.2.1 : ℚ) / 255, 1⟩
  | .Rgba => fun v =>
      let c := unpackChannels v
      ⟨(c.1 : ℚ) / 255, (c.2.1 : ℚ) / 255, (c.2.2.1 : ℚ) / 255, (c.2.2.2 : ℚ) / 255⟩

/-! ## Dynamic buffer geometry

Modelled from the spec (`DynamicBufferGeometry.ts`): "resize geometry
buffers only if point/vertex count changed, otherwise overwrite
contents to avoid reallocation churn"; "Buffers are resized to exactly
`pointCount` before writing; this is the only allocation point in
steady state."  `geomId` tags the identity of the geometry object
(never changed by resizing); `allocId` tags the identity of the backing
buffers (bumped exactly when a reallocation happens). -/

structure DynGeometry where
  geomId : Nat
  allocId : Nat
  itemCapacity : Nat
  positions : List (ℚ × ℚ × ℚ)
  colors : List (ℚ × ℚ × ℚ × ℚ)
deriving DecidableEq

/-- Modelled from the spec: `geometry.resize(pointCount)` — reallocate
the position/color buffers only when the point count changed. -/
def DynGeometry.resize (g : DynGeometry) (n : Nat) : DynGeometry :=
  if n = g.itemCapacity then g
  else
    { g with
      allocId := g.allocId + 1
      itemCapacity := n
      positions := List.replicate n (0, 0, 0)
      colors := List.replicate n (0, 0, 0, 0) }

/-- The attribute-population loop of `_updatePointCloudRenderable`:
for each point, `positionAttribute.setXYZ(i, x, y, z)` from the bound
readers and `colorAttribute.setXYZW(i, ...)` from the color converter. -/
def writePoints (xR yR zR cR : FieldReader) (conv : ℚ → Rgba)
    (data : List Nat) (step : Nat) : Nat → DynGeometry → DynGeometry
  | 0, g => g
  | n + 1, g =>
    let g1 := writePoints xR yR zR cR conv data step n g
    let off := n * step
    let c := conv (cR data off)
    { g1 with
      positions := g1.positions.set n (xR data off, yR data off, zR data off)
      colors := g1.colors.set n (c.r, c.g, c.b, c.a) }

/-! ## Diagnostics and JS errors -/

/-- A diagnostic record: (topic, errorKind, message), as passed to the
renderer's per-topic error sink `addToTopic`.  Modelled from the spec:
the sink itself (`TopicErrors`/`layerErrors`) is outside the source
tree, so it is modelled as the append-only log of `addToTopic` calls. -/
abbrev Diag : Type := String × String × String

/-- One `addToTopic(topic, errorKind, message)` call appended to the
log. -/
def addToTopic (log : List Diag) (topic errorKind message : String) : List Diag :=
  log ++ [(topic, errorKind, message)]

/-- Source `INVALID_POINT_CLOUD` error kind. -/
def INVALID_POINT_CLOUD : String := "INVALID_POINT_CLOUD"

/-- Modelled from the spec (`transforms.ts` `MISSING_TRANSFORM`): the
missing-transform error kind. -/
def MISSING_TRANSFORM : String := "MISSING_TRANSFORM"

/-- Modelled from the spec (`transforms.ts` `missingTransformMessage`):
the human-readable missing-transform diagnostic text. -/
def missingTransformMessage (renderFrameId fixedFrameId srcFrameId : String) : String :=
  "Missing transform from frame \"" ++ srcFrameId ++ "\" to fixed frame \"" ++
    fixedFrameId ++ "\" (render frame \"" ++ renderFrameId ++ "\")"

/-- A JavaScript runtime exception.  `typeError` is thrown by a member
access on `undefined`. -/
inductive JsError where
  | typeError
deriving DecidableEq

/-! ## Structural validation (source lines 144-165) -/

/-- The JS test `data.length % point_step !== 0`.  With JS number
semantics, `x % 0` is `NaN` and `NaN !== 0` is true, so a zero
`point_step` always fails this check. -/
def jsModNeZero (len step : Nat) : Bool :=
  step == 0 || len % step != 0

/-- The "Invalid point cloud checks" if/else-if chain of
`_updatePointCloudRenderable`: the first failing check's message, or
`none` when all five checks pass. -/
def structuralValidationReason (pc : PointCloud2) : Option String :=
  if pc.is_bigendian then
    some "PointCloud2 is_bigendian=true is not supported"
  else if jsModNeZero pc.data.length pc.point_step then
    some ("PointCloud2 data length " ++ toString pc.data.length ++
      " is not a multiple of point_step " ++ toString pc.point_step)
  else if pc.fields.length = 0 then
    some "PointCloud2 has no fields"
  else if pc.data.length < pc.height * pc.row_step then
    some ("PointCloud2 data length " ++ toString pc.data.length ++ " is less than height " ++
      toString pc.height ++ " * row_step " ++ toString pc.row_step)
  else if pc.width * pc.point_step > pc.row_step then
    some ("PointCloud2 width " ++ toString pc.width ++ " * point_step " ++
      toString pc.point_step ++ " is greater than row_step " ++ toString pc.row_step)
  else
    none

/-! ## Reader resolution (source lines 167-225) -/

/-- The loop state of the field scan: the optional x/y/z readers and
the optional color-field reader. -/
structure ReaderSlots where
  xr : Option FieldReader
  yr : Option FieldReader
  zr : Option FieldReader
  cr : Option FieldReader

/-- All four reader slots empty (loop entry state). -/
def emptySlots : ReaderSlots := ⟨none, none, none, none⟩

/-- The error string for an x/y/z or color field whose reader cannot be
bound. -/
def invalidFieldMessage (name : String) (dt : PointFieldType) (off step : Nat) : String :=
  "PointCloud2 field \"" ++ name ++ "\" is invalid. type=" ++ pointFieldTypeName dt ++
    ", offset=" ++ toString off ++ ", point_step=" ++ toString step

/-- The `if (field.name === "x") ... else if ... else if ...` part of
one loop iteration: bind the axis reader on an exact name match; an
unbindable present axis field aborts with an error. -/
def axisBind (f : PointField) (step : Nat) (acc : ReaderSlots) : Except String ReaderSlots :=
  if f.name = "x" then
    match getReader f step with
    | none => .error (invalidFieldMessage "x" f.datatype f.offset step)
    | some r => .ok { acc with xr := some r }
  else if f.name = "y" then
    match getReader f step with
    | none => .error (invalidFieldMessage "y" f.datatype f.offset step)
    | some r => .ok { acc with yr := some r }
  else if f.name = "z" then
    match getReader f step with
    | none => .error (invalidFieldMessage "z" f.datatype f.offset step)
    | some r => .ok { acc with zr := some r }
  else .ok acc

/-- The `if (field.name === settings.colorField)` part of one loop
iteration: bind the color reader; an unbindable selected color field
aborts with an error. -/
def colorBind (cf : Option String) (f : PointField) (step : Nat) (acc : ReaderSlots) :
    Except String ReaderSlots :=
  if cf = some f.name then
    match getReader f step with
    | none => .error (invalidFieldMessage f.name f.datatype f.offset step)
    | some r => .ok { acc with cr := some r }
  else .ok acc

/-- The early-exit condition of the field scan
(`if (xReader && yReader && zReader && colorReader) break`). -/
def slotsFull (acc : ReaderSlots) : Bool :=
  acc.xr.isSome && acc.yr.isSome && acc.zr.isSome && acc.cr.isSome

/-- The field scan loop of `_updatePointCloudRenderable`: for each
field in order, bind the x/y/z reader on an exact name match, then
bind the color reader when the field is the selected `colorField`, and
break out of the loop once all four readers are bound. -/
def resolveReaders (cf : Option String) (step : Nat) :
    List PointField → ReaderSlots → Except String ReaderSlots
  | [], acc => .ok acc
  | f :: rest, acc =>
    match axisBind f step acc with
    | .error m => .error m
    | .ok acc1 =>
      match colorBind cf f step acc1 with
      | .error m => .error m
      | .ok acc2 =>
        if slotsFull acc2 then .ok acc2
        else resolveReaders cf step rest acc2

/-- The reader-resolution stage (source lines 167-225): run the field
scan, reject when fewer than two of the x/y/z readers were bound, and
apply the defaulting chain
`colorReader ??= xReader ?? yReader ?? zReader ?? zeroReader;
xReader ??= zeroReader; ...`. -/
def decodeStage (settings : PointCloudSettings) (pc : PointCloud2) :
    Except String (FieldReader × FieldReader × FieldReader × FieldReader) :=
  match resolveReaders settings.colorField pc.point_step pc.fields emptySlots with
  | .error m => .error m
  | .ok s =>
    let positionReaderCount : Nat :=
      (if s.xr.isSome then 1 else 0) + (if s.yr.isSome then 1 else 0) +
        (if s.zr.isSome then 1 else 0)
    if positionReaderCount < 2 then
      .error "PointCloud2 must contain at least two of x/y/z fields"
    else
      let colorReader : FieldReader :=
        match s.cr with
        | some r => r
        | none =>
          match s.xr with
          | some r => r
          | none =>
            match s.yr with
            | some r => r
            | none =>
              match s.zr with
              | some r => r
              | none => zeroReader
      .ok (s.xr.getD zeroReader, s.yr.getD zeroReader, s.zr.getD zeroReader, colorReader)

/-! ## The point-cloud renderable and its update -/

/-- The `userData` of a point-cloud renderable (source
`PointCloudRenderable`): topic, settings, last stored message, pose,
source timestamp, the dynamic geometry, the acquired points material
and the picking material's point size.  Note the declared members do
NOT include `positionAttribute`/`colorAttribute`; nothing in the module
ever assigns them. -/
structure PCUserData where
  topic : String
  settings : PointCloudSettings
  pointCloud : PointCloud2
  pose : Pose
  srcTime : Nat
  geometry : DynGeometry
  pointsMaterialId : String
  pickingPointSize : ℚ
deriving DecidableEq

/-- Source `invalidPointCloudError`: record the INVALID_POINT_CLOUD
diagnostic for the renderable's topic, then evaluate
`renderable.userData.positionAttribute.resize(0)`.  `positionAttribute`
is never assigned anywhere in the module (construction sets only topic,
settings, pointCloud, pose, srcTime, geometry and points), so that
member access is `undefined.resize` and throws a TypeError; the
renderable's fields are left as they were at the call. -/
def invalidPointCloudError (log : List Diag) (ud : PCUserData) (message : String) :
    List Diag × PCUserData × Option JsError :=
  (addToTopic log ud.topic INVALID_POINT_CLOUD message, ud, some JsError.typeError)

/-- Source `_updatePointCloudRenderable`: store the incoming message
and its source timestamp, run the structural validation checks, resolve
the field readers, then resize the geometry to
`pointCount = trunc(data.length / point_step)`, compute the color
domain, and populate the position and color attributes.  The first
component is the diagnostic log, the second the renderable's `userData`
after the call, the third the JS exception if one escaped. -/
def updatePointCloudRenderable (log : List Diag) (ud : PCUserData) (pc : PointCloud2) :
    List Diag × PCUserData × Option JsError :=
  let ud := { ud with pointCloud := pc, srcTime := rosTimeToNanoSec pc.header.stamp }
  match structuralValidationReason pc with
  | some msg => invalidPointCloudError log ud msg
  | none =>
    match decodeStage ud.settings pc with
    | .error msg => invalidPointCloudError log ud msg
    | .ok (xReader, yReader, zReader, colorReader) =>
      let pointCount := pc.data.length / pc.point_step
      let geometry := ud.geometry.resize pointCount
      let dom := computeColorDomain ud.settings colorReader pc.data pc.point_step pointCount
      let conv := getColorConverter ud.settings dom.1 dom.2
      let geometry := writePoints xReader yReader zReader colorReader conv
        pc.data pc.point_step pointCount geometry
      (log, { ud with geometry := geometry }, none)

/-! ## The PointClouds collection -/

/-- A registered point-cloud renderable; `id` tags the identity of the
`THREE.Object3D` instance. -/
structure PCRenderable where
  id : Nat
  name : String
  userData : PCUserData
deriving DecidableEq

/-- Source `pointCloudHasTransparency`. -/
def pointCloudHasTransparency (settings : PointCloudSettings) : Bool :=
  match settings.colorMode with
  | .Flat => settings.flatColor.a < 1
  | .Gradient => settings.minColor.a < 1 || settings.maxColor.a < 1
  | .Rainbow => false
  | .Turbo => false
  | .Rgb => false
  | .Rgba => true

/-- Modelled from the spec: the configuration-identity key of the
shared vertex-color points material
(`PointsVertexColor.id(scale, transparent)`). -/
def pointsVertexColorId (settings : PointCloudSettings) : String :=
  "PointsVertexColor-" ++ toString settings.pointSize ++ "-" ++
    (if pointCloudHasTransparency settings then "t" else "o")

/-- Modelled from the spec: the shared material cache as reference
counts keyed by configuration identity; `acquire` bumps the count. -/
def acquireMaterial (cache : List (String × Nat)) (key : String) : List (String × Nat) :=
  match cache.lookup key with
  | some _ => cache.map (fun e => if e.1 = key then (e.1, e.2 + 1) else e)
  | none => cache ++ [(key, 1)]

/-- Modelled from the spec: release one reference of a cached
material. -/
def releaseMaterial (cache : List (String × Nat)) (key : String) : List (String × Nat) :=
  cache.map (fun e => if e.1 = key then (e.1, e.2 - 1) else e)

/-- The state owned by the `PointClouds` collection (plus the
renderer-owned error sink and material cache it reaches through
`this.renderer`): the per-topic renderable map, the scene-graph
children (by renderable id), the identity allocator, the material
cache, and the diagnostic log. -/
structure PointCloudsState where
  pointCloudsByTopic : List (String × PCRenderable)
  children : List Nat
  nextId : Nat
  materialCache : List (String × Nat)
  errors : List Diag
deriving DecidableEq

/-- `this.pointCloudsByTopic.get(topic)`. -/
def lookupRenderable (st : PointCloudsState) (topic : String) : Option PCRenderable :=
  st.pointCloudsByTopic.lookup topic

/-- Replace the renderable stored under an existing topic key. -/
def setRenderable (m : List (String × PCRenderable)) (topic : String) (r : PCRenderable) :
    List (String × PCRenderable) :=
  m.map (fun e => if e.1 = topic then (e.1, r) else e)

/-- The renderable constructed by `addPointCloud2Message` on the first
message for a topic: default settings with `autoSelectColorField` run
once, a fresh dynamic geometry with a `position` and a `color`
attribute, the shared points material and the picking material. -/
def newPointCloudRenderable (st : PointCloudsState) (topic : String) (pc : PointCloud2) :
    PCRenderable :=
  let settings := autoSelectColorField defaultPointCloudSettings pc
  let geometry : DynGeometry :=
    { geomId := st.nextId + 1, allocId := 0, itemCapacity := 0, positions := [], colors := [] }
  let matId := pointsVertexColorId settings
  { id := st.nextId
    name := topic
    userData :=
      { topic := topic
        settings := settings
        pointCloud := pc
        pose := makePose
        srcTime := rosTimeToNanoSec pc.header.stamp
        geometry := geometry
        pointsMaterialId := matId
        pickingPointSize := max settings.pointSize 8 } }

/-- Source `addPointCloud2Message`: create the renderable, its default
settings (with `autoSelectColorField` run once), geometry, material and
scene-graph attachment on the first message for a topic; then (for a
new or existing topic) run `_updatePointCloudRenderable`.  A JS
exception thrown by the update escapes, but all mutations made before
the throw persist. -/
def addPointCloud2Message (st : PointCloudsState) (topic : String) (pc : PointCloud2) :
    PointCloudsState × Option JsError :=
  match lookupRenderable st topic with
  | some r =>
    let res := updatePointCloudRenderable st.errors r.userData pc
    ({ st with
        errors := res.1
        pointCloudsByTopic := setRenderable st.pointCloudsByTopic topic { r with userData := res.2.1 } },
      res.2.2)
  | none =>
    let r := newPointCloudRenderable st topic pc
    let st1 : PointCloudsState :=
      { st with
        pointCloudsByTopic := st.pointCloudsByTopic ++ [(topic, r)]
        children := st.children ++ [r.id]
        nextId := st.nextId + 2
        materialCache := acquireMaterial st.materialCache r.userData.pointsMaterialId }
    let res := updatePointCloudRenderable st1.errors r.userData pc
    ({ st1 with
        errors := res.1
        pointCloudsByTopic := setRenderable st1.pointCloudsByTopic topic { r with userData := res.2.1 } },
      res.2.2)

/-! ## Per-frame pose resolution (source `PointClouds.startFrame`) -/

/-- JS falsiness of a `string | undefined`. -/
def jsFalsy (s : Option String) : Bool :=
  match s with
  | none => true
  | some v => v == ""

/-- Modelled from the spec (`updatePose.ts`, not in the source tree):
the pose resolver is treated as an oracle deciding success from
(renderFrameId, fixedFrameId, srcFrameId, currentTime, srcTime); its
internal pose mutation is irrelevant to the claims settled here. -/
abbrev UpdatePoseFn : Type := String → String → String → Nat → Nat → Bool

/-- One `updatePose` invocation record:
(renderFrameId, fixedFrameId, frameId, currentTime, srcTime). -/
abbrev PoseCall : Type := String × String × String × Nat × Nat

/-- The loop body of `PointClouds.startFrame` for one renderable:
invoke the pose resolver with the renderable's source frame and
timestamp and the current time, and record the MISSING_TRANSFORM
diagnostic on failure. -/
def startFrameStep (upd : UpdatePoseFn) (rf ff : String) (currentTime : Nat)
    (acc : List Diag × List PoseCall) (e : String × PCRenderable) : List Diag × List PoseCall :=
  let srcTime := e.2.userData.srcTime
  let frameId := e.2.userData.pointCloud.header.frame_id
  let updated := upd rf ff frameId currentTime srcTime
  (if updated then acc.1
   else addToTopic acc.1 e.2.userData.topic MISSING_TRANSFORM
     (missingTransformMessage rf ff frameId),
   acc.2 ++ [(rf, ff, frameId, currentTime, srcTime)])

/-- Source `PointClouds.startFrame(currentTime)`: return immediately
when either frame id is unset; otherwise invoke the pose resolver for
every registered renderable with the renderable's own source frame and
timestamp and the current time, and record a per-topic
MISSING_TRANSFORM diagnostic whenever it reports failure.  The second
component is the list of `updatePose` invocations made (in order); the
function is total, so no exception escapes. -/
def pointCloudsStartFrame (upd : UpdatePoseFn) (st : PointCloudsState)
    (renderFrameId fixedFrameId : Option String) (currentTime : Nat) :
    PointCloudsState × List PoseCall :=
  if jsFalsy renderFrameId || jsFalsy fixedFrameId then (st, [])
  else
    let rf := renderFrameId.getD ""
    let ff := fixedFrameId.getD ""
    let r := st.pointCloudsByTopic.foldl (startFrameStep upd rf ff currentTime) (st.errors, [])
    ({ st with errors := r.1 }, r.2)

/-! ## Markers: `RenderableMarker.update` and `RenderableSphere.update` -/

/-- A marker message (the members used by the sphere renderable:
header, namespace, id, pose, scale, color). -/
structure Marker where
  header : Header
  ns : String
  id : Int
  pose : Pose
  scale : Vec3
  color : Rgba
deriving DecidableEq

/-- The state of a `RenderableSphere`: the fields of
`RenderableMarker` (topic, current marker, `userData.pose`,
`userData.srcTime`) plus the sphere mesh's material identity and the
object scale. -/
structure SphereState where
  topic : String
  marker : Marker
  pose : Pose
  srcTime : Nat
  meshMaterialId : String
  scaleV : Vec3
deriving DecidableEq

/-- Modelled from the spec (`markers/materials.ts` `standardMaterial`):
the configuration-identity key of the shared standard material for a
marker's color. -/
def standardMaterialId (m : Marker) : String :=
  "StandardMaterial-" ++ toString m.color.r ++ "-" ++ toString m.color.g ++ "-" ++
    toString m.color.b ++ "-" ++ toString m.color.a

/-- Source `RenderableMarker.update`: store the new marker and refresh
`userData.srcTime` and `userData.pose` from it. -/
def renderableMarkerUpdate (s : SphereState) (m : Marker) : SphereState :=
  { s with marker := m, srcTime := rosTimeToNanoSec m.header.stamp, pose := m.pose }

/-- Source `RenderableSphere.update`: `super.update(marker)` first
(which overwrites `this.marker`), then the material-replacement guard
`if (!rgbaEqual(marker.color, this.marker.color))` (release the old
shared material, acquire one for the new color), then the scale
update.  Returns the material cache and the sphere state after the
call. -/
def renderableSphereUpdate (cache : List (String × Nat)) (s : SphereState) (m : Marker) :
    List (String × Nat) × SphereState :=
  let s1 := renderableMarkerUpdate s m
  let step2 : List (String × Nat) × SphereState :=
    if !(rgbaEqual m.color s1.marker.color) then
      let cache1 := releaseMaterial cache (standardMaterialId m)
      (acquireMaterial cache1 (standardMaterialId m), { s1 with meshMaterialId := standardMaterialId m })
    else (cache, s1)
  (step2.1, { step2.2 with scaleV := m.scale })

/-! ## The render loop (`Renderer.ts`) -/

/-- The observable steps of one `frameHandler` tick, in order. -/
inductive RenderEvent where
  | emitStartFrame (t : Nat)
  | controlsUpdate
  | setFrameIds
  | materialCacheUpdate
  | frameAxesStartFrame (t : Nat)
  | markersStartFrame (t : Nat)
  | glClear
  | glRender
  | emitEndFrame (t : Nat)
  | glInfoReset
deriving DecidableEq

/-- The state of the `Renderer` relevant to the loop. -/
structure RendererState where
  currentTime : Option Nat
  fixedFrameId : Option String
  renderFrameId : Option String
deriving DecidableEq

/-- Source `Renderer.frameHandler`: emit `startFrame`, update the
orbit controls, hard-code the fixed/render frame ids to "base_link",
update the material cache, run each collection's `startFrame`
(`frameAxes`, `markers`), clear and render, emit `endFrame`, and reset
the per-frame renderer statistics (`gl.info.reset()`).  Returns the
state after the call and the ordered event trace. -/
def frameHandler (st : RendererState) (t : Nat) : RendererState × List RenderEvent :=
  ({ st with fixedFrameId := some "base_link", renderFrameId := some "base_link" },
   [.emitStartFrame t, .controlsUpdate, .setFrameIds, .materialCacheUpdate,
    .frameAxesStartFrame t, .markersStartFrame t, .glClear, .glRender,
    .emitEndFrame t, .glInfoReset])

/-- Source `Renderer.animationFrame`: re-schedule itself via
`requestAnimationFrame` (the `Bool`), then invoke `frameHandler` only
when `currentTime` is defined. -/
def animationFrame (st : RendererState) : RendererState × List RenderEvent × Bool :=
  match st.currentTime with
  | none => (st, [], true)
  | some t =>
    let r := frameHandler st t
    (r.1, r.2, true)

/-! ## Claim-side definitions

These definitions restate claim text in the claims' own words, to be
compared against the embedded source functions. -/

/-- C5 claim side: the color mode and channel byte order matching each
recognized composite color field name. -/
def colorModeForFieldClaim (name : String) : PointCloudColorMode × String :=
  match name with
  | "rgb" => (.Rgb, "rgba")
  | "bgr" => (.Rgb, "bgra")
  | "bgra" => (.Rgba, "bgra")
  | "abgr" => (.Rgba, "abgr")
  | _ => (.Rgba, "rgba")

/-- C5 claim side: "the first field whose name is in the exact set
{rgb, rgba, bgr, bgra, abgr, color} is chosen together with its
matching color mode and channel byte order; failing that, the first
field named intensity or i is chosen; failing that, the first declared
field is chosen." -/
def autoSelectColorFieldClaim (s : PointCloudSettings) (pc : PointCloud2) : PointCloudSettings :=
  match pc.fields.find? (fun f => COLOR_FIELDS.contains f.name) with
  | some f =>
    { s with
      colorField := some f.name
      colorMode := (colorModeForFieldClaim f.name).1
      rgbByteOrder := (colorModeForFieldClaim f.name).2 }
  | none =>
    match pc.fields.find? (fun f => INTENSITY_FIELDS.contains f.name) with
    | some f => { s with colorField := some f.name, colorMode := DEFAULT_COLOR_MODE }
    | none =>
      match pc.fields with
      | [] => s
      | f :: _ => { s with colorField := some f.name, colorMode := DEFAULT_COLOR_MODE }

/-- C4 claim side: the axis name has at least one field with that exact
name that resolves to a bound typed reader. -/
def axisResolvable (pc : PointCloud2) (axis : String) : Bool :=
  pc.fields.any (fun f => f.name == axis && (getReader f pc.point_step).isSome)

/-- C4 claim side: how many of the x/y/z axes resolve to a bound typed
reader. -/
def resolvableAxisCount (pc : PointCloud2) : Nat :=
  (if axisResolvable pc "x" then 1 else 0) + (if axisResolvable pc "y" then 1 else 0) +
    (if axisResolvable pc "z" then 1 else 0)

/-- C3 claim side: the five rejection conditions exactly as the claim
lists them ("data.length is not a multiple of point_step" read as
divisibility). -/
def structuralRejectClaim (pc : PointCloud2) : Prop :=
  pc.is_bigendian = true ∨ ¬(pc.point_step ∣ pc.data.length) ∨ pc.fields = [] ∨
    pc.data.length < pc.height * pc.row_step ∨ pc.width * pc.point_step > pc.row_step

instance (pc : PointCloud2) : Decidable (structuralRejectClaim pc) := by
  unfold structuralRejectClaim; infer_instance

/-- C8 claim side: the claimed per-tick sequence — the trace opens with
the `startFrame` emission, closes with the `endFrame` emission, and the
per-frame reset step occurs before the render call. -/
def c8ClaimedSequence (t : Nat) (tr : List RenderEvent) : Prop :=
  tr.head? = some (.emitStartFrame t) ∧ tr.getLast? = some (.emitEndFrame t) ∧
    tr.findIdx (· == .glInfoReset) < tr.findIdx (· == .glRender)

instance (t : Nat) (tr : List RenderEvent) : Decidable (c8ClaimedSequence t tr) := by
  unfold c8ClaimedSequence; infer_instance

/-! ## Concrete inputs used by witnesses and counterexamples -/

/-- A structurally valid point cloud with fields x, y only (both
UINT8), two points, bytes [1, 2, 3, 4]. -/
def pcXYOnly : PointCloud2 where
  header := ⟨⟨0, 7⟩, "lidar"⟩
  height := 1
  width := 2
  fields := [⟨"x", 0, .UINT8, 1⟩, ⟨"y", 1, .UINT8, 1⟩]
  is_bigendian := false
  point_step := 2
  row_step := 4
  data := [1, 2, 3, 4]

/-- A point cloud with only an x field: fewer than two resolvable
axes. -/
def pcOnlyX : PointCloud2 where
  header := ⟨⟨0, 7⟩, "lidar"⟩
  height := 1
  width := 2
  fields := [⟨"x", 0, .UINT8, 1⟩]
  is_bigendian := false
  point_step := 1
  row_step := 2
  data := [1, 2]

/-- A structurally valid point cloud with fields y, z only (both
UINT8), two points, bytes [1, 2, 3, 4]: the x axis is absent. -/
def pcYZOnly : PointCloud2 where
  header := ⟨⟨0, 7⟩, "lidar"⟩
  height := 1
  width := 2
  fields := [⟨"y", 0, .UINT8, 1⟩, ⟨"z", 1, .UINT8, 1⟩]
  is_bigendian := false
  point_step := 2
  row_step := 4
  data := [1, 2, 3, 4]

/-- A structurally valid point cloud with fields x, z only (both
UINT8), two points, bytes [1, 2, 3, 4]: the y axis is absent. -/
def pcXZOnly : PointCloud2 where
  header := ⟨⟨0, 7⟩, "lidar"⟩
  height := 1
  width := 2
  fields := [⟨"x", 0, .UINT8, 1⟩, ⟨"z", 1, .UINT8, 1⟩]
  is_bigendian := false
  point_step := 2
  row_step := 4
  data := [1, 2, 3, 4]

/-- A big-endian (hence invalid) point cloud. -/
def pcBigEndian : PointCloud2 where
  header := ⟨⟨1, 5⟩, "lidar"⟩
  height := 1
  width := 1
  fields := [⟨"x", 0, .UINT8, 1⟩, ⟨"y", 1, .UINT8, 1⟩]
  is_bigendian := true
  point_step := 2
  row_step := 2
  data := [9, 9]

/-- A degenerate message with `point_step = 0` and empty payload:
`data.length` (0) is a multiple of `point_step` (0), yet the JS check
`0 % 0 !== 0` evaluates `NaN !== 0`, i.e. rejects. -/
def pcZeroStep : PointCloud2 where
  header := ⟨⟨0, 0⟩, "lidar"⟩
  height := 0
  width := 0
  fields := [⟨"x", 0, .FLOAT32, 1⟩]
  is_bigendian := false
  point_step := 0
  row_step := 0
  data := []

/-- A renderable `userData` holding a previously decoded valid cloud
(three points already in the buffers). -/
def udPrev : PCUserData where
  topic := "/points"
  settings := { defaultPointCloudSettings with colorField := some "x", colorMode := .Flat }
  pointCloud := pcXYOnly
  pose := makePose
  srcTime := 7
  geometry :=
    { geomId := 1, allocId := 0, itemCapacity := 2
      positions := [(1, 2, 0), (3, 4, 0)], colors := [(1, 1, 1, 1), (1, 1, 1, 1)] }
  pointsMaterialId := "PointsVertexColor-3/2-o"
  pickingPointSize := 8

/-- A one-renderable collection state for the witnesses. -/
def stOne : PointCloudsState where
  pointCloudsByTopic := [("/points", { id := 0, name := "/points", userData := udPrev })]
  children := [0]
  nextId := 2
  materialCache := [("PointsVertexColor-3/2-o", 1)]
  errors := []

/-- Event classifiers used to state the per-tick ordering facts
independently of the tick's time payload. -/
def isEmitStartFrame : RenderEvent → Bool
  | .emitStartFrame _ => true
  | _ => false

def isEmitEndFrame : RenderEvent → Bool
  | .emitEndFrame _ => true
  | _ => false

def isCollectionStartFrame : RenderEvent → Bool
  | .frameAxesStartFrame _ => true
  | .markersStartFrame _ => true
  | _ => false

def isGlRender : RenderEvent → Bool
  | .glRender => true
  | _ => false

def isInfoReset : RenderEvent → Bool
  | .glInfoReset => true
  | _ => false

/-- The renderable registered in `stOne`. -/
def rOne : PCRenderable := { id := 0, name := "/points", userData := udPrev }

/-! # Theorems -/

/-! ## Helper lemmas -/

theorem rgbaEqual_self (c : Rgba) : rgbaEqual c c = true := by
  simp [rgbaEqual]

theorem get?_set_self {α : Type} (l : List α) (i : Nat) (a : α) (h : i < l.length) :
    (l.set i a).get? i = some a := by
  induction l generalizing i with
  | nil => simp at h
  | cons x xs ih =>
    cases i with
    | zero => simp
    | succ j =>
      simp only [List.set, List.get?]
      exact ih j (by simpa using h)

theorem get?_set_ne {α : Type} (l : List α) (i j : Nat) (a : α) (h : i ≠ j) :
    (l.set i a).get? j = l.get? j := by
  induction l generalizing i j with
  | nil => simp
  | cons x xs ih =>
    cases i with
    | zero =>
      cases j with
      | zero => exact absurd rfl h
      | succ k => simp
    | succ i1 =>
      cases j with
      | zero => simp
      | succ k =>
        simp only [List.set, List.get?]
        exact ih i1 k (fun he => h (by rw [he]))

theorem writePoints_geomId (xR yR zR cR : FieldReader) (conv : ℚ → Rgba)
    (data : List Nat) (step : Nat) : ∀ (n : Nat) (g : DynGeometry),
    (writePoints xR yR zR cR conv data step n g).geomId = g.geomId := by
  intro n
  induction n with
  | zero => intro g; rfl
  | succ m ih => intro g; simp [writePoints, ih]

theorem writePoints_allocId (xR yR zR cR : FieldReader) (conv : ℚ → Rgba)
    (data : List Nat) (step : Nat) : ∀ (n : Nat) (g : DynGeometry),
    (writePoints xR yR zR cR conv data step n g).allocId = g.allocId := by
  intro n
  induction n with
  | zero => intro g; rfl
  | succ m ih => intro g; simp [writePoints, ih]

theorem writePoints_itemCapacity (xR yR zR cR : FieldReader) (conv : ℚ → Rgba)
    (data : List Nat) (step : Nat) : ∀ (n : Nat) (g : DynGeometry),
    (writePoints xR yR zR cR conv data step n g).itemCapacity = g.itemCapacity := by
  intro n
  induction n with
  | zero => intro g; rfl
  | succ m ih => intro g; simp [writePoints, ih]

theorem writePoints_positions_length (xR yR zR cR : FieldReader) (conv : ℚ → Rgba)
    (data : List Nat) (step : Nat) : ∀ (n : Nat) (g : DynGeometry),
    (writePoints xR yR zR cR conv data step n g).positions.length = g.positions.length := by
  intro n
  induction n with
  | zero => intro g; rfl
  | succ m ih => intro g; simp [writePoints, ih]

theorem writePoints_get? (xR yR zR cR : FieldReader) (conv : ℚ → Rgba)
    (data : List Nat) (step : Nat) : ∀ (n : Nat) (g : DynGeometry) (i : Nat), i < n →
    n ≤ g.positions.length →
    (writePoints xR yR zR cR conv data step n g).positions.get? i =
      some (xR data (i * step), yR data (i * step), zR data (i * step)) := by
  intro n
  induction n with
  | zero => intro g i hi _; omega
  | succ m ih =>
    intro g i hi hlen
    simp only [writePoints]
    rcases Nat.lt_or_ge i m with hlt | hge
    · rw [get?_set_ne _ _ _ _ (by omega)]
      exact ih g i hlt (by omega)
    · have him : i = m := by omega
      subst him
      rw [get?_set_self]
      rw [writePoints_positions_length]
      omega

theorem resize_geomId (g : DynGeometry) (n : Nat) : (g.resize n).geomId = g.geomId := by
  unfold DynGeometry.resize
  split <;> rfl

theorem resize_itemCapacity (g : DynGeometry) (n : Nat) : (g.resize n).itemCapacity = n := by
  unfold DynGeometry.resize
  split
  · omega
  · rfl

theorem resize_allocId_of_eq (g : DynGeometry) (n : Nat) (h : g.itemCapacity = n) :
    (g.resize n).allocId = g.allocId := by
  unfold DynGeometry.resize
  split
  · rfl
  · omega

theorem resize_allocId_of_ne (g : DynGeometry) (n : Nat) (h : g.itemCapacity ≠ n) :
    (g.resize n).allocId = g.allocId + 1 := by
  unfold DynGeometry.resize
  split
  · omega
  · rfl

theorem resize_positions_length (g : DynGeometry) (n : Nat)
    (h : g.positions.length = g.itemCapacity) : (g.resize n).positions.length = n := by
  unfold DynGeometry.resize
  split
  · omega
  · simp

/-! ## C9 -/

/-- C9: `RenderableSphere.update(m)` never replaces the mesh's
material: `super.update` assigns `this.marker = m` before the guard
`rgbaEqual(m.color, this.marker.color)` is evaluated, so the guard
compares `m`'s color with itself and the material-replacement branch is
unreachable — the material acquired at construction (and the material
cache) are unchanged by every update, even when the new marker's color
differs from the previous one. -/
theorem c9_sphere_update_never_replaces_material (cache : List (String × Nat))
    (s : SphereState) (m : Marker) :
    (renderableSphereUpdate cache s m).2.meshMaterialId = s.meshMaterialId ∧
    (renderableSphereUpdate cache s m).1 = cache ∧
    rgbaEqual m.color (renderableMarkerUpdate s m).marker.color = true := by
  have hguard : rgbaEqual m.color (renderableMarkerUpdate s m).marker.color = true := by
    simp [renderableMarkerUpdate, rgbaEqual_self]
  refine ⟨?_, ?_, hguard⟩ <;>
    simp [renderableSphereUpdate, renderableMarkerUpdate, rgbaEqual_self]

/-! ## C10 -/

/-- C10: while `Renderer.currentTime` is undefined the animation-frame
loop only re-schedules itself: the state is untouched, the event trace
is empty (no startFrame/endFrame emission, no pose updates, no render),
and the next animation frame is requested. -/
theorem c10_idle_until_time_set (st : RendererState) (h : st.currentTime = none) :
    animationFrame st = (st, [], true) := by
  simp [animationFrame, h]

theorem c10_idle_until_time_set_witness :
    animationFrame ⟨none, none, none⟩ = (⟨none, none, none⟩, [], true) :=
  c10_idle_until_time_set ⟨none, none, none⟩ rfl

/-! ## C8 -/

/-- C8 (counterexample): the claimed per-tick sequence — per-frame
reset before the render call and `endFrame` emitted last — does not
hold of the `frameHandler` trace: the only per-frame reset
(`gl.info.reset()`) happens after the `endFrame` emission, which is
therefore not the final step of the tick. -/
theorem c8_claimed_sequence_fails :
    ¬ c8ClaimedSequence 0 (frameHandler ⟨some 0, none, none⟩ 0).2 := by
  decide

/-- C8 (amended): every `frameHandler` tick emits `startFrame` exactly
once and first, runs each collection's `startFrame` before the render
call, renders exactly once, emits `endFrame` exactly once after the
render, and then — as the final step, after `endFrame` — resets the
per-frame renderer statistics; no per-frame error-state reset occurs
before rendering. -/
theorem c8_frame_sequence_amended (st : RendererState) (t : Nat) :
    ((frameHandler st t).2.countP isEmitStartFrame = 1 ∧
      (frameHandler st t).2.findIdx isEmitStartFrame = 0) ∧
    ((frameHandler st t).2.countP isCollectionStartFrame = 2 ∧
      (frameHandler st t).2.findIdx isCollectionStartFrame <
        (frameHandler st t).2.findIdx isGlRender) ∧
    ((frameHandler st t).2.countP isGlRender = 1 ∧
      (frameHandler st t).2.findIdx isGlRender < (frameHandler st t).2.findIdx isEmitEndFrame) ∧
    ((frameHandler st t).2.countP isEmitEndFrame = 1 ∧
      (frameHandler st t).2.findIdx isEmitEndFrame < (frameHandler st t).2.findIdx isInfoReset) ∧
    ((frameHandler st t).2.countP isInfoReset = 1 ∧
      (frameHandler st t).2.getLast? = some RenderEvent.glInfoReset) := by
  exact ⟨⟨rfl, rfl⟩, ⟨rfl, (by omega : (4 : Nat) < 7)⟩, ⟨rfl, (by omega : (7 : Nat) < 8)⟩,
    ⟨rfl, (by omega : (8 : Nat) < 9)⟩, ⟨rfl, rfl⟩⟩

/-! ## C1 -/

/-- C1 (code_bug evaluation): processing a validation-failing message
(`is_bigendian = true`) on a renderable that holds prior valid geometry
records the InvalidPointCloud diagnostic, but does NOT leave the
renderable's state untouched: the stored point-cloud message and source
timestamp are overwritten with the invalid message's before validation
runs, and the error handler then throws a TypeError (its
`userData.positionAttribute.resize(0)` accesses a member that is never
assigned).  Only the geometry buffers survive unchanged. -/
theorem c1_invalid_message_mutates_state_and_throws :
    (updatePointCloudRenderable [] udPrev pcBigEndian).1 =
      [("/points", INVALID_POINT_CLOUD, "PointCloud2 is_bigendian=true is not supported")] ∧
    (updatePointCloudRenderable [] udPrev pcBigEndian).2.2 = some JsError.typeError ∧
    (updatePointCloudRenderable [] udPrev pcBigEndian).2.1.pointCloud = pcBigEndian ∧
    ¬ (updatePointCloudRenderable [] udPrev pcBigEndian).2.1.pointCloud = udPrev.pointCloud ∧
    ¬ (updatePointCloudRenderable [] udPrev pcBigEndian).2.1.srcTime = udPrev.srcTime ∧
    (updatePointCloudRenderable [] udPrev pcBigEndian).2.1.geometry = udPrev.geometry := by
  decide

/-! ## C3 -/

theorem jsModNeZero_iff (len step : Nat) :
    jsModNeZero len step = true ↔ (step = 0 ∨ ¬ step ∣ len) := by
  unfold jsModNeZero
  rcases Nat.eq_zero_or_pos step with h | h
  · subst h; simp
  · have hne : step ≠ 0 := by omega
    simp [hne, Nat.dvd_iff_mod_eq_zero]

/-- C3 (counterexample): with `point_step = 0` and an empty payload,
`data.length` (0) IS a multiple of `point_step` (0) and none of the
claim's five rejection conditions holds, yet structural validation
rejects the message (JS evaluates `0 % 0 !== 0` as `NaN !== 0`, which
is true). -/
theorem c3_zero_point_step_counterexample :
    (structuralValidationReason pcZeroStep).isSome = true ∧ ¬ structuralRejectClaim pcZeroStep := by
  decide

/-- C3 (amended): a PointCloud2 message is rejected by the structural
validation stage exactly when `is_bigendian` is true, `point_step` is
zero, `data.length` is not a multiple of `point_step`, the fields array
is empty, `data.length < height * row_step`, or
`width * point_step > row_step`; a message satisfying none of these
passes the structural stage.  Moreover any structurally rejected
message leads `_updatePointCloudRenderable` to record exactly one
INVALID_POINT_CLOUD diagnostic and to leave the renderable unchanged
apart from the already-stored message and source timestamp (the error
handler then throws). -/
theorem c3_structural_validation_amended (pc : PointCloud2) :
    ((structuralValidationReason pc).isSome = true ↔
      (pc.is_bigendian = true ∨ pc.point_step = 0 ∨ ¬ pc.point_step ∣ pc.data.length ∨
        pc.fields = [] ∨ pc.data.length < pc.height * pc.row_step ∨
        pc.width * pc.point_step > pc.row_step)) ∧
    (∀ (log : List Diag) (ud : PCUserData), (structuralValidationReason pc).isSome = true →
      ∃ msg, updatePointCloudRenderable log ud pc =
        (addToTopic log ud.topic INVALID_POINT_CLOUD msg,
         { ud with pointCloud := pc, srcTime := rosTimeToNanoSec pc.header.stamp },
         some JsError.typeError)) := by
  constructor
  · unfold structuralValidationReason
    split_ifs with h1 h2 h3 h4 h5 <;>
      simp_all [jsModNeZero_iff, List.length_eq_zero] <;> try omega
  · intro log ud h
    cases hr : structuralValidationReason pc with
    | none => rw [hr] at h; simp at h
    | some msg =>
      refine ⟨msg, ?_⟩
      simp [updatePointCloudRenderable, hr, invalidPointCloudError]

theorem c3_structural_validation_amended_witness :
    ∃ msg, updatePointCloudRenderable [] udPrev pcBigEndian =
      (addToTopic [] udPrev.topic INVALID_POINT_CLOUD msg,
       { udPrev with
          pointCloud := pcBigEndian
          srcTime := rosTimeToNanoSec pcBigEndian.header.stamp },
       some JsError.typeError) :=
  (c3_structural_validation_amended pcBigEndian).2 [] udPrev (by decide)

/-! ## C2 -/

theorem startFrame_foldl (upd : UpdatePoseFn) (rf ff : String) (t : Nat) :
    ∀ (l : List (String × PCRenderable)) (errs : List Diag) (calls : List PoseCall),
    l.foldl (startFrameStep upd rf ff t) (errs, calls) =
      (errs ++ (l.filter (fun e =>
          !(upd rf ff e.2.userData.pointCloud.header.frame_id t e.2.userData.srcTime))).map
        (fun e => (e.2.userData.topic, MISSING_TRANSFORM,
          missingTransformMessage rf ff e.2.userData.pointCloud.header.frame_id)),
       calls ++ l.map (fun e =>
         (rf, ff, e.2.userData.pointCloud.header.frame_id, t, e.2.userData.srcTime))) := by
  intro l
  induction l with
  | nil => intro errs calls; simp
  | cons e l ih =>
    intro errs calls
    rw [List.foldl_cons]
    cases hu : upd rf ff e.2.userData.pointCloud.header.frame_id t e.2.userData.srcTime with
    | true => simp [startFrameStep, hu, ih]
    | false => simp [startFrameStep, hu, ih, addToTopic]

/-- C2: on a `startFrame(currentTime)` tick in which both the render
frame and the fixed frame are set (truthy), the point-cloud collection
invokes the pose resolver exactly once per registered renderable, in
registration order, passing that renderable's own source frame id and
source timestamp together with the current time; for exactly the
renderables on which the resolver reports failure a per-topic
MISSING_TRANSFORM diagnostic is appended to the renderer's per-topic
error sink, and the collection state is otherwise unchanged
(`pointCloudsStartFrame` is total, so no exception escapes). -/
theorem c2_start_frame_pose_resolution (upd : UpdatePoseFn) (st : PointCloudsState)
    (rfid ffid : Option String) (t : Nat)
    (h1 : jsFalsy rfid = false) (h2 : jsFalsy ffid = false) :
    (pointCloudsStartFrame upd st rfid ffid t).2 =
      st.pointCloudsByTopic.map (fun e =>
        (rfid.getD "", ffid.getD "", e.2.userData.pointCloud.header.frame_id, t,
          e.2.userData.srcTime)) ∧
    (pointCloudsStartFrame upd st rfid ffid t).1.errors =
      st.errors ++ (st.pointCloudsByTopic.filter (fun e =>
          !(upd (rfid.getD "") (ffid.getD "") e.2.userData.pointCloud.header.frame_id t
            e.2.userData.srcTime))).map
        (fun e => (e.2.userData.topic, MISSING_TRANSFORM,
          missingTransformMessage (rfid.getD "") (ffid.getD "")
            e.2.userData.pointCloud.header.frame_id)) ∧
    (pointCloudsStartFrame upd st rfid ffid t).1.pointCloudsByTopic = st.pointCloudsByTopic ∧
    (pointCloudsStartFrame upd st rfid ffid t).1.children = st.children := by
  unfold pointCloudsStartFrame
  rw [h1, h2]
  simp [startFrame_foldl]

theorem c2_start_frame_pose_resolution_witness :
    (pointCloudsStartFrame (fun _ _ _ _ _ => false) stOne (some "base_link") (some "map") 42).2 =
      stOne.pointCloudsByTopic.map (fun e =>
        ((some "base_link").getD "", (some "map").getD "",
          e.2.userData.pointCloud.header.frame_id, 42, e.2.userData.srcTime)) ∧
    (pointCloudsStartFrame (fun _ _ _ _ _ => false) stOne (some "base_link") (some "map")
        42).1.errors =
      stOne.errors ++ (stOne.pointCloudsByTopic.filter (fun e =>
          !((fun _ _ _ _ _ => false) ((some "base_link").getD "") ((some "map").getD "")
            e.2.userData.pointCloud.header.frame_id 42 e.2.userData.srcTime))).map
        (fun e => (e.2.userData.topic, MISSING_TRANSFORM,
          missingTransformMessage ((some "base_link").getD "") ((some "map").getD "")
            e.2.userData.pointCloud.header.frame_id)) ∧
    (pointCloudsStartFrame (fun _ _ _ _ _ => false) stOne (some "base_link") (some "map")
        42).1.pointCloudsByTopic = stOne.pointCloudsByTopic ∧
    (pointCloudsStartFrame (fun _ _ _ _ _ => false) stOne (some "base_link") (some "map")
        42).1.children = stOne.children :=
  c2_start_frame_pose_resolution (fun _ _ _ _ _ => false) stOne (some "base_link") (some "map")
    42 rfl rfl

/-! ## C6 -/

theorem scanMinMax_spec (f : Nat → ℚ) :
    ∀ n, 1 ≤ n →
    ∃ a b, scanMinMax f n (XRat.posInf, XRat.negInf) = (XRat.fin a, XRat.fin b) ∧
      (∃ i, i < n ∧ f i = a) ∧ (∀ i, i < n → a ≤ f i) ∧
      (∃ i, i < n ∧ f i = b) ∧ (∀ i, i < n → f i ≤ b) := by
  intro n
  induction n with
  | zero => intro h; exact absurd h (by omega)
  | succ m ih =>
    intro _
    rcases Nat.eq_zero_or_pos m with hm | hm
    · subst hm
      refine ⟨f 0, f 0, by simp [scanMinMax, jsMin, jsMax], ⟨0, by omega, rfl⟩, ?_,
        ⟨0, by omega, rfl⟩, ?_⟩
      · intro i hi
        have hi0 : i = 0 := by omega
        subst hi0; exact le_refl _
      · intro i hi
        have hi0 : i = 0 := by omega
        subst hi0; exact le_refl _
    · obtain ⟨a, b, heq, ⟨ia, hia, hfa⟩, hmin, ⟨ib, hib, hfb⟩, hmax⟩ := ih hm
      refine ⟨min a (f m), max b (f m), ?_, ?_, ?_, ?_, ?_⟩
      · simp only [scanMinMax, heq, jsMin, jsMax]
      · rcases le_total a (f m) with h | h
        · exact ⟨ia, by omega, hfa.trans (min_eq_left h).symm⟩
        · exact ⟨m, by omega, (min_eq_right h).symm⟩
      · intro i hi
        rcases Nat.lt_or_ge i m with h | h
        · exact le_trans (min_le_left _ _) (hmin i h)
        · have him : i = m := by omega
          subst him; exact min_le_right _ _
      · rcases le_total (f m) b with h | h
        · exact ⟨ib, by omega, hfb.trans (max_eq_left h).symm⟩
        · exact ⟨m, by omega, (max_eq_right h).symm⟩
      · intro i hi
        rcases Nat.lt_or_ge i m with h | h
        · exact le_trans (hmax i h) (le_max_left _ _)
        · have him : i = m := by omega
          subst him; exact le_max_right _ _

/-- C6: when neither `minValue` nor `maxValue` is pinned in the topic's
settings, the color-domain computation of `_updatePointCloudRenderable`
scans the points once, and the domain handed to the color converter is
exactly the minimum and the maximum of the decoded color-field values
over all points; a pinned bound overrides the corresponding scanned
bound. -/
theorem c6_color_domain_exact_min_max (settings : PointCloudSettings)
    (colorReader : FieldReader) (data : List Nat) (step count : Nat) :
    (settings.minValue = none → settings.maxValue = none → 1 ≤ count →
      ∃ a b, computeColorDomain settings colorReader data step count = (XRat.fin a, XRat.fin b) ∧
        (∃ i, i < count ∧ colorReader data (i * step) = a) ∧
        (∀ i, i < count → a ≤ colorReader data (i * step)) ∧
        (∃ i, i < count ∧ colorReader data (i * step) = b) ∧
        (∀ i, i < count → colorReader data (i * step) ≤ b)) ∧
    (∀ q, settings.minValue = some q →
      (computeColorDomain settings colorReader data step count).1 = XRat.fin q) ∧
    (∀ q, settings.maxValue = some q →
      (computeColorDomain settings colorReader data step count).2 = XRat.fin q) := by
  refine ⟨?_, ?_, ?_⟩
  · intro hmin hmax hc
    obtain ⟨a, b, heq, hma, hba, hmb, hbb⟩ :=
      scanMinMax_spec (fun i => colorReader data (i * step)) count hc
    exact ⟨a, b, by simp [computeColorDomain, hmin, hmax, heq], hma, hba, hmb, hbb⟩
  · intro q hq
    unfold computeColorDomain
    rw [hq]
    cases hx : settings.maxValue <;> simp [hx]
  · intro q hq
    unfold computeColorDomain
    rw [hq]
    cases hx : settings.minValue <;> simp [hx]

theorem c6_color_domain_exact_min_max_witness :
    computeColorDomain { defaultPointCloudSettings with colorMode := .Gradient }
        (makeReader .UINT8 0) [0, 5, 10] 1 3 = (XRat.fin 0, XRat.fin 10) ∧
    (∃ a b, computeColorDomain { defaultPointCloudSettings with colorMode := .Gradient }
        (makeReader .UINT8 0) [0, 5, 10] 1 3 = (XRat.fin a, XRat.fin b) ∧
      (∃ i, i < 3 ∧ makeReader .UINT8 0 [0, 5, 10] (i * 1) = a) ∧
      (∀ i, i < 3 → a ≤ makeReader .UINT8 0 [0, 5, 10] (i * 1)) ∧
      (∃ i, i < 3 ∧ makeReader .UINT8 0 [0, 5, 10] (i * 1) = b) ∧
      (∀ i, i < 3 → makeReader .UINT8 0 [0, 5, 10] (i * 1) ≤ b)) :=
  ⟨by decide,
   (c6_color_domain_exact_min_max { defaultPointCloudSettings with colorMode := .Gradient }
      (makeReader .UINT8 0) [0, 5, 10] 1 3).1 rfl rfl (by omega)⟩

/-! ## Map and update-preservation lemmas -/

theorem lookup_cons_pair {β : Type} (k a : String) (v : β) (l : List (String × β)) :
    ((k, v) :: l).lookup a = if a == k then some v else l.lookup a := by
  simp only [List.lookup]
  split <;> simp_all

theorem lookup_setRenderable (m : List (String × PCRenderable)) (topic : String)
    (r0 r : PCRenderable) (h : m.lookup topic = some r0) :
    (setRenderable m topic r).lookup topic = some r := by
  induction m with
  | nil => simp at h
  | cons e rest ih =>
    obtain ⟨k, v⟩ := e
    by_cases hk : k = topic
    · subst hk
      simp [setRenderable, lookup_cons_pair]
    · have hk2 : (topic == k) = false := beq_eq_false_iff_ne.mpr (Ne.symm hk)
      rw [lookup_cons_pair, hk2] at h
      simp only [setRenderable, List.map_cons]
      rw [show (if (k, v).1 = topic then ((k, v).1, r) else (k, v)) = (k, v) from by simp [hk]]
      rw [lookup_cons_pair, hk2]
      simp only [if_false, Bool.false_eq_true]
      exact ih (by simpa using h)

theorem lookup_append_of_none (m1 m2 : List (String × PCRenderable)) (topic : String)
    (h : m1.lookup topic = none) : (m1 ++ m2).lookup topic = m2.lookup topic := by
  induction m1 with
  | nil => simp
  | cons e rest ih =>
    obtain ⟨k, v⟩ := e
    by_cases hk : topic = k
    · subst hk
      simp [List.lookup] at h
    · have hk2 : (topic == k) = false := by simp [hk]
      simp only [List.cons_append, List.lookup, hk2] at h ⊢
      exact ih h

theorem update_preserves_fields (log : List Diag) (ud : PCUserData) (pc : PointCloud2) :
    (updatePointCloudRenderable log ud pc).2.1.topic = ud.topic ∧
    (updatePointCloudRenderable log ud pc).2.1.settings = ud.settings ∧
    (updatePointCloudRenderable log ud pc).2.1.geometry.geomId = ud.geometry.geomId ∧
    (updatePointCloudRenderable log ud pc).2.1.pointsMaterialId = ud.pointsMaterialId ∧
    (updatePointCloudRenderable log ud pc).2.1.pointCloud = pc ∧
    (updatePointCloudRenderable log ud pc).2.1.srcTime = rosTimeToNanoSec pc.header.stamp := by
  unfold updatePointCloudRenderable
  cases h1 : structuralValidationReason pc with
  | some msg => simp [invalidPointCloudError]
  | none =>
    cases h2 : decodeStage ud.settings pc with
    | error msg => simp [h2, invalidPointCloudError]
    | ok readers =>
      obtain ⟨xR, yR, zR, cR⟩ := readers
      simp [h2, writePoints_geomId, resize_geomId]

/-! ## C5 -/

theorem selectComposite_eq (s : PointCloudSettings) :
    ∀ l : List PointField,
    selectComposite s l = (l.find? (fun f => COLOR_FIELDS.contains f.name)).map (fun f =>
      { s with
        colorField := some f.name
        colorMode := (colorModeForFieldClaim f.name).1
        rgbByteOrder := (colorModeForFieldClaim f.name).2 }) := by
  intro l
  induction l with
  | nil => simp [selectComposite]
  | cons f rest ih =>
    by_cases h : COLOR_FIELDS.contains f.name
    · rw [List.find?_cons_of_pos rest
        (show (fun f => COLOR_FIELDS.contains f.name) f = true from h)]
      have hm : f.name = "rgb" ∨ f.name = "rgba" ∨ f.name = "bgr" ∨ f.name = "bgra" ∨
          f.name = "abgr" ∨ f.name = "color" := by
        simpa [COLOR_FIELDS] using h
      simp only [selectComposite, h, if_true, Option.map_some']
      rcases hm with h1 | h1 | h1 | h1 | h1 | h1 <;> rw [h1] <;> rfl
    · rw [List.find?_cons_of_neg rest
        (show ¬ (fun f => COLOR_FIELDS.contains f.name) f = true from by simpa using h)]
      simp only [selectComposite, h, if_false, Bool.false_eq_true]
      exact ih

theorem selectIntensity_eq (s : PointCloudSettings) :
    ∀ l : List PointField,
    selectIntensity s l = (l.find? (fun f => INTENSITY_FIELDS.contains f.name)).map (fun f =>
      { s with colorField := some f.name, colorMode := DEFAULT_COLOR_MODE }) := by
  intro l
  induction l with
  | nil => simp [selectIntensity]
  | cons f rest ih =>
    by_cases h : INTENSITY_FIELDS.contains f.name
    · rw [List.find?_cons_of_pos rest
        (show (fun f => INTENSITY_FIELDS.contains f.name) f = true from h)]
      simp only [selectIntensity, h, if_true, Option.map_some']
    · rw [List.find?_cons_of_neg rest
        (show ¬ (fun f => INTENSITY_FIELDS.contains f.name) f = true from by simpa using h)]
      simp only [selectIntensity, h, if_false, Bool.false_eq_true]
      exact ih

/-- C5: the color field is auto-selected exactly once per topic.  The
selection implements the claimed priority: the first field whose name
is in {rgb, rgba, bgr, bgra, abgr, color} together with its matching
color mode and channel byte order; failing that the first field named
intensity or i; failing that the first declared field.  On the first
message for a topic the created renderable carries exactly this
selection over the default settings, and on every subsequent message
for the topic the stored settings (hence the selection) are left
untouched — `autoSelectColorField` is not re-run. -/
theorem c5_auto_select_once_and_sticky :
    (∀ (s : PointCloudSettings) (pc : PointCloud2),
      autoSelectColorField s pc = autoSelectColorFieldClaim s pc) ∧
    (∀ (st : PointCloudsState) (topic : String) (pc : PointCloud2),
      lookupRenderable st topic = none →
      ∃ r2, lookupRenderable (addPointCloud2Message st topic pc).1 topic = some r2 ∧
        r2.userData.settings = autoSelectColorField defaultPointCloudSettings pc) ∧
    (∀ (st : PointCloudsState) (topic : String) (pc : PointCloud2) (r : PCRenderable),
      lookupRenderable st topic = some r →
      ∃ r2, lookupRenderable (addPointCloud2Message st topic pc).1 topic = some r2 ∧
        r2.userData.settings = r.userData.settings) := by
  refine ⟨?_, ?_, ?_⟩
  · intro s pc
    unfold autoSelectColorField autoSelectColorFieldClaim
    rw [selectComposite_eq, selectIntensity_eq]
    cases h1 : pc.fields.find? (fun f => COLOR_FIELDS.contains f.name) with
    | some f => simp
    | none =>
      cases h2 : pc.fields.find? (fun f => INTENSITY_FIELDS.contains f.name) with
      | some f => simp
      | none => cases pc.fields <;> simp
  · intro st topic pc h
    unfold addPointCloud2Message
    simp only [h]
    have h' : st.pointCloudsByTopic.lookup topic = none := h
    have hm : (st.pointCloudsByTopic ++ [(topic, newPointCloudRenderable st topic pc)]).lookup
        topic = some (newPointCloudRenderable st topic pc) := by
      rw [lookup_append_of_none _ _ _ h']
      simp [lookup_cons_pair]
    refine ⟨_, lookup_setRenderable _ topic _ _ hm, ?_⟩
    have hs := (update_preserves_fields st.errors
      (newPointCloudRenderable st topic pc).userData pc).2.1
    exact hs
  · intro st topic pc r h
    unfold addPointCloud2Message
    simp only [h]
    have h' : st.pointCloudsByTopic.lookup topic = some r := h
    refine ⟨_, lookup_setRenderable _ topic _ _ h', ?_⟩
    exact (update_preserves_fields st.errors r.userData pc).2.1

theorem c5_auto_select_once_and_sticky_witness :
    (∃ r2, lookupRenderable (addPointCloud2Message stOne "/new" pcXYOnly).1 "/new" = some r2 ∧
      r2.userData.settings = autoSelectColorField defaultPointCloudSettings pcXYOnly) ∧
    (∃ r2, lookupRenderable (addPointCloud2Message stOne "/points" pcXYOnly).1 "/points" =
        some r2 ∧ r2.userData.settings = rOne.userData.settings) :=
  ⟨c5_auto_select_once_and_sticky.2.1 stOne "/new" pcXYOnly rfl,
   c5_auto_select_once_and_sticky.2.2 stOne "/points" pcXYOnly rOne rfl⟩

/-! ## C4 -/

theorem axisBind_ok_fields (f : PointField) (step : Nat) (acc acc1 : ReaderSlots)
    (h : axisBind f step acc = .ok acc1) :
    (acc1.xr = acc.xr ∨ (f.name = "x" ∧ (getReader f step).isSome = true ∧
      acc1.xr.isSome = true)) ∧
    (acc1.yr = acc.yr ∨ (f.name = "y" ∧ (getReader f step).isSome = true ∧
      acc1.yr.isSome = true)) ∧
    (acc1.zr = acc.zr ∨ (f.name = "z" ∧ (getReader f step).isSome = true ∧
      acc1.zr.isSome = true)) ∧
    acc1.cr = acc.cr := by
  unfold axisBind at h
  split_ifs at h with h1 h2 h3
  · cases hg : getReader f step with
    | none => rw [hg] at h; exact absurd h (by simp)
    | some r =>
      rw [hg] at h
      simp only [Except.ok.injEq] at h
      subst h
      exact ⟨Or.inr ⟨h1, by simp [hg], rfl⟩, Or.inl rfl, Or.inl rfl, rfl⟩
  · cases hg : getReader f step with
    | none => rw [hg] at h; exact absurd h (by simp)
    | some r =>
      rw [hg] at h
      simp only [Except.ok.injEq] at h
      subst h
      exact ⟨Or.inl rfl, Or.inr ⟨h2, by simp [hg], rfl⟩, Or.inl rfl, rfl⟩
  · cases hg : getReader f step with
    | none => rw [hg] at h; exact absurd h (by simp)
    | some r =>
      rw [hg] at h
      simp only [Except.ok.injEq] at h
      subst h
      exact ⟨Or.inl rfl, Or.inl rfl, Or.inr ⟨h3, by simp [hg], rfl⟩, rfl⟩
  · simp only [Except.ok.injEq] at h
    subst h
    exact ⟨Or.inl rfl, Or.inl rfl, Or.inl rfl, rfl⟩

theorem colorBind_ok_axes (cf : Option String) (f : PointField) (step : Nat)
    (acc acc1 : ReaderSlots) (h : colorBind cf f step acc = .ok acc1) :
    acc1.xr = acc.xr ∧ acc1.yr = acc.yr ∧ acc1.zr = acc.zr := by
  unfold colorBind at h
  split_ifs at h with h1
  · cases hg : getReader f step with
    | none => rw [hg] at h; exact absurd h (by simp)
    | some r =>
      rw [hg] at h
      simp only [Except.ok.injEq] at h
      subst h
      exact ⟨rfl, rfl, rfl⟩
  · simp only [Except.ok.injEq] at h
    subst h
    exact ⟨rfl, rfl, rfl⟩

theorem resolveReaders_ok_xr (cf : Option String) (step : Nat) (s1 : ReaderSlots) :
    ∀ (l : List PointField) (acc : ReaderSlots),
    resolveReaders cf step l acc = .ok s1 → s1.xr.isSome = true →
    acc.xr.isSome = true ∨
      ∃ f, f ∈ l ∧ f.name = "x" ∧ (getReader f step).isSome = true := by
  intro l
  induction l with
  | nil =>
    intro acc h hs
    simp only [resolveReaders, Except.ok.injEq] at h
    subst h
    exact Or.inl hs
  | cons f rest ih =>
    intro acc h hs
    simp only [resolveReaders] at h
    cases ha : axisBind f step acc with
    | error m => rw [ha] at h; exact absurd h (by simp)
    | ok acc1 =>
      simp only [ha] at h
      cases hc : colorBind cf f step acc1 with
      | error m => rw [hc] at h; exact absurd h (by simp)
      | ok acc2 =>
        simp only [hc] at h
        have hax := (axisBind_ok_fields f step acc acc1 ha).1
        have hcx := (colorBind_ok_axes cf f step acc1 acc2 hc).1
        by_cases hfull : slotsFull acc2 = true
        · rw [if_pos hfull] at h
          simp only [Except.ok.injEq] at h
          subst h
          rw [hcx] at hs
          rcases hax with he | ⟨hn, hg, _⟩
          · rw [he] at hs; exact Or.inl hs
          · exact Or.inr ⟨f, List.mem_cons_self f rest, hn, hg⟩
        · rw [if_neg hfull] at h
          rcases ih acc2 h hs with h2 | ⟨f2, hf2, hn2, hg2⟩
          · rw [hcx] at h2
            rcases hax with he | ⟨hn, hg, _⟩
            · rw [he] at h2; exact Or.inl h2
            · exact Or.inr ⟨f, List.mem_cons_self f rest, hn, hg⟩
          · exact Or.inr ⟨f2, List.mem_cons_of_mem f hf2, hn2, hg2⟩

theorem resolveReaders_ok_yr (cf : Option String) (step : Nat) (s1 : ReaderSlots) :
    ∀ (l : List PointField) (acc : ReaderSlots),
    resolveReaders cf step l acc = .ok s1 → s1.yr.isSome = true →
    acc.yr.isSome = true ∨
      ∃ f, f ∈ l ∧ f.name = "y" ∧ (getReader f step).isSome = true := by
  intro l
  induction l with
  | nil =>
    intro acc h hs
    simp only [resolveReaders, Except.ok.injEq] at h
    subst h
    exact Or.inl hs
  | cons f rest ih =>
    intro acc h hs
    simp only [resolveReaders] at h
    cases ha : axisBind f step acc with
    | error m => rw [ha] at h; exact absurd h (by simp)
    | ok acc1 =>
      simp only [ha] at h
      cases hc : colorBind cf f step acc1 with
      | error m => rw [hc] at h; exact absurd h (by simp)
      | ok acc2 =>
        simp only [hc] at h
        have hax := (axisBind_ok_fields f step acc acc1 ha).2.1
        have hcx := (colorBind_ok_axes cf f step acc1 acc2 hc).2.1
        by_cases hfull : slotsFull acc2 = true
        · rw [if_pos hfull] at h
          simp only [Except.ok.injEq] at h
          subst h
          rw [hcx] at hs
          rcases hax with he | ⟨hn, hg, _⟩
          · rw [he] at hs; exact Or.inl hs
          · exact Or.inr ⟨f, List.mem_cons_self f rest, hn, hg⟩
        · rw [if_neg hfull] at h
          rcases ih acc2 h hs with h2 | ⟨f2, hf2, hn2, hg2⟩
          · rw [hcx] at h2
            rcases hax with he | ⟨hn, hg, _⟩
            · rw [he] at h2; exact Or.inl h2
            · exact Or.inr ⟨f, List.mem_cons_self f rest, hn, hg⟩
          · exact Or.inr ⟨f2, List.mem_cons_of_mem f hf2, hn2, hg2⟩

theorem resolveReaders_ok_zr (cf : Option String) (step : Nat) (s1 : ReaderSlots) :
    ∀ (l : List PointField) (acc : ReaderSlots),
    resolveReaders cf step l acc = .ok s1 → s1.zr.isSome = true →
    acc.zr.isSome = true ∨
      ∃ f, f ∈ l ∧ f.name = "z" ∧ (getReader f step).isSome = true := by
  intro l
  induction l with
  | nil =>
    intro acc h hs
    simp only [resolveReaders, Except.ok.injEq] at h
    subst h
    exact Or.inl hs
  | cons f rest ih =>
    intro acc h hs
    simp only [resolveReaders] at h
    cases ha : axisBind f step acc with
    | error m => rw [ha] at h; exact absurd h (by simp)
    | ok acc1 =>
      simp only [ha] at h
      cases hc : colorBind cf f step acc1 with
      | error m => rw [hc] at h; exact absurd h (by simp)
      | ok acc2 =>
        simp only [hc] at h
        have hax := (axisBind_ok_fields f step acc acc1 ha).2.2.1
        have hcx := (colorBind_ok_axes cf f step acc1 acc2 hc).2.2
        by_cases hfull : slotsFull acc2 = true
        · rw [if_pos hfull] at h
          simp only [Except.ok.injEq] at h
          subst h
          rw [hcx] at hs
          rcases hax with he | ⟨hn, hg, _⟩
          · rw [he] at hs; exact Or.inl hs
          · exact Or.inr ⟨f, List.mem_cons_self f rest, hn, hg⟩
        · rw [if_neg hfull] at h
          rcases ih acc2 h hs with h2 | ⟨f2, hf2, hn2, hg2⟩
          · rw [hcx] at h2
            rcases hax with he | ⟨hn, hg, _⟩
            · rw [he] at h2; exact Or.inl h2
            · exact Or.inr ⟨f, List.mem_cons_self f rest, hn, hg⟩
          · exact Or.inr ⟨f2, List.mem_cons_of_mem f hf2, hn2, hg2⟩

theorem resolveReaders_zr_none (cf : Option String) (step : Nat) (s1 : ReaderSlots) :
    ∀ (l : List PointField) (acc : ReaderSlots),
    (∀ f, f ∈ l → f.name ≠ "z") →
    resolveReaders cf step l acc = .ok s1 → acc.zr = none → s1.zr = none := by
  intro l
  induction l with
  | nil =>
    intro acc _ h hz
    simp only [resolveReaders, Except.ok.injEq] at h
    subst h
    exact hz
  | cons f rest ih =>
    intro acc hnames h hz
    simp only [resolveReaders] at h
    cases ha : axisBind f step acc with
    | error m => rw [ha] at h; exact absurd h (by simp)
    | ok acc1 =>
      simp only [ha] at h
      cases hc : colorBind cf f step acc1 with
      | error m => rw [hc] at h; exact absurd h (by simp)
      | ok acc2 =>
        simp only [hc] at h
        have haz := (axisBind_ok_fields f step acc acc1 ha).2.2.1
        have hcz := (colorBind_ok_axes cf f step acc1 acc2 hc).2.2
        have hz1 : acc1.zr = none := by
          rcases haz with he | ⟨hn, _, _⟩
          · rw [he]; exact hz
          · exact absurd hn (hnames f (List.mem_cons_self f rest))
        have hz2 : acc2.zr = none := by rw [hcz]; exact hz1
        by_cases hfull : slotsFull acc2 = true
        · rw [if_pos hfull] at h
          simp only [Except.ok.injEq] at h
          subst h
          exact hz2
        · rw [if_neg hfull] at h
          exact ih acc2 (fun g hg => hnames g (List.mem_cons_of_mem f hg)) h hz2

theorem resolveReaders_xr_none (cf : Option String) (step : Nat) (s1 : ReaderSlots) :
    ∀ (l : List PointField) (acc : ReaderSlots),
    (∀ f, f ∈ l → f.name ≠ "x") →
    resolveReaders cf step l acc = .ok s1 → acc.xr = none → s1.xr = none := by
  intro l
  induction l with
  | nil =>
    intro acc _ h hz
    simp only [resolveReaders, Except.ok.injEq] at h
    subst h
    exact hz
  | cons f rest ih =>
    intro acc hnames h hz
    simp only [resolveReaders] at h
    cases ha : axisBind f step acc with
    | error m => rw [ha] at h; exact absurd h (by simp)
    | ok acc1 =>
      simp only [ha] at h
      cases hc : colorBind cf f step acc1 with
      | error m => rw [hc] at h; exact absurd h (by simp)
      | ok acc2 =>
        simp only [hc] at h
        have haz := (axisBind_ok_fields f step acc acc1 ha).1
        have hcz := (colorBind_ok_axes cf f step acc1 acc2 hc).1
        have hz1 : acc1.xr = none := by
          rcases haz with he | ⟨hn, _, _⟩
          · rw [he]; exact hz
          · exact absurd hn (hnames f (List.mem_cons_self f rest))
        have hz2 : acc2.xr = none := by rw [hcz]; exact hz1
        by_cases hfull : slotsFull acc2 = true
        · rw [if_pos hfull] at h
          simp only [Except.ok.injEq] at h
          subst h
          exact hz2
        · rw [if_neg hfull] at h
          exact ih acc2 (fun g hg => hnames g (List.mem_cons_of_mem f hg)) h hz2

theorem resolveReaders_yr_none (cf : Option String) (step : Nat) (s1 : ReaderSlots) :
    ∀ (l : List PointField) (acc : ReaderSlots),
    (∀ f, f ∈ l → f.name ≠ "y") →
    resolveReaders cf step l acc = .ok s1 → acc.yr = none → s1.yr = none := by
  intro l
  induction l with
  | nil =>
    intro acc _ h hz
    simp only [resolveReaders, Except.ok.injEq] at h
    subst h
    exact hz
  | cons f rest ih =>
    intro acc hnames h hz
    simp only [resolveReaders] at h
    cases ha : axisBind f step acc with
    | error m => rw [ha] at h; exact absurd h (by simp)
    | ok acc1 =>
      simp only [ha] at h
      cases hc : colorBind cf f step acc1 with
      | error m => rw [hc] at h; exact absurd h (by simp)
      | ok acc2 =>
        simp only [hc] at h
        have haz := (axisBind_ok_fields f step acc acc1 ha).2.1
        have hcz := (colorBind_ok_axes cf f step acc1 acc2 hc).2.1
        have hz1 : acc1.yr = none := by
          rcases haz with he | ⟨hn, _, _⟩
          · rw [he]; exact hz
          · exact absurd hn (hnames f (List.mem_cons_self f rest))
        have hz2 : acc2.yr = none := by rw [hcz]; exact hz1
        by_cases hfull : slotsFull acc2 = true
        · rw [if_pos hfull] at h
          simp only [Except.ok.injEq] at h
          subst h
          exact hz2
        · rw [if_neg hfull] at h
          exact ih acc2 (fun g hg => hnames g (List.mem_cons_of_mem f hg)) h hz2

theorem decodeStage_ok_inversion (settings : PointCloudSettings) (pc : PointCloud2)
    (xR yR zR cR : FieldReader) (h : decodeStage settings pc = .ok (xR, yR, zR, cR)) :
    ∃ s : ReaderSlots,
      resolveReaders settings.colorField pc.point_step pc.fields emptySlots = .ok s ∧
      2 ≤ (if s.xr.isSome then 1 else 0) + (if s.yr.isSome then 1 else 0) +
        (if s.zr.isSome then 1 else 0) ∧
      xR = s.xr.getD zeroReader ∧ yR = s.yr.getD zeroReader ∧ zR = s.zr.getD zeroReader := by
  unfold decodeStage at h
  cases hr : resolveReaders settings.colorField pc.point_step pc.fields emptySlots with
  | error m => rw [hr] at h; exact absurd h (by simp)
  | ok s =>
    simp only [hr] at h
    by_cases hcount : ((if s.xr.isSome then 1 else 0) + (if s.yr.isSome then 1 else 0) +
        (if s.zr.isSome then 1 else 0) : Nat) < 2
    · rw [if_pos hcount] at h
      exact absurd h (by simp)
    · rw [if_neg hcount] at h
      simp only [Except.ok.injEq, Prod.mk.injEq] at h
      exact ⟨s, rfl, by omega, h.1.symm, h.2.1.symm, h.2.2.1.symm⟩

/-- For a message whose update completes without error, every written
position-buffer entry is the triple decoded by the x/y/z readers bound
by the field scan, each defaulting to the zero reader when its axis
slot stayed unbound. -/
theorem update_success_positions (log : List Diag) (ud : PCUserData) (pc : PointCloud2)
    (hlen : ud.geometry.positions.length = ud.geometry.itemCapacity)
    (hok : (updatePointCloudRenderable log ud pc).2.2 = none) :
    ∃ s : ReaderSlots,
      resolveReaders ud.settings.colorField pc.point_step pc.fields emptySlots = .ok s ∧
      ∀ i, i < (updatePointCloudRenderable log ud pc).2.1.geometry.positions.length →
        (updatePointCloudRenderable log ud pc).2.1.geometry.positions.get? i =
          some ((s.xr.getD zeroReader) pc.data (i * pc.point_step),
                (s.yr.getD zeroReader) pc.data (i * pc.point_step),
                (s.zr.getD zeroReader) pc.data (i * pc.point_step)) := by
  revert hok
  unfold updatePointCloudRenderable
  cases h1 : structuralValidationReason pc with
  | some msg => intro hok; exact absurd hok (by simp [invalidPointCloudError])
  | none =>
    cases h2 : decodeStage ud.settings pc with
    | error msg =>
      simp only [h2]
      intro hok
      exact absurd hok (by simp [invalidPointCloudError])
    | ok readers =>
      obtain ⟨xR, yR, zR, cR⟩ := readers
      simp only [h2]
      intro _
      obtain ⟨s, hr, _, hxR, hyR, hzR⟩ := decodeStage_ok_inversion ud.settings pc xR yR zR cR h2
      refine ⟨s, hr, ?_⟩
      intro i hi
      have hrlen : (ud.geometry.resize (pc.data.length / pc.point_step)).positions.length =
          pc.data.length / pc.point_step := resize_positions_length ud.geometry _ hlen
      have hi2 : i < pc.data.length / pc.point_step := by
        rw [writePoints_positions_length, hrlen] at hi
        exact hi
      rw [writePoints_get? _ _ _ _ _ pc.data pc.point_step _ _ i hi2 (by rw [hrlen]),
        hxR, hyR, hzR]

/-- C4: if fewer than two of the point-cloud fields named exactly
"x", "y", "z" resolve to a bound typed reader, the update rejects the
message (an InvalidPointCloud diagnostic is recorded and the error
handler throws instead of decoding); otherwise any single absent axis
among x/y/z is decoded as 0.0 for every point: whenever the update
completes without error on a message having no field named "x" (resp.
"y", "z"), the position buffer holds x = 0 (resp. y = 0, z = 0) at
every point index. -/
theorem c4_two_axes_required_and_absent_axis_zero (log : List Diag) (ud : PCUserData)
    (pc : PointCloud2) :
    (resolvableAxisCount pc < 2 →
      (updatePointCloudRenderable log ud pc).2.2 = some JsError.typeError ∧
      ∃ msg, (updatePointCloudRenderable log ud pc).1 =
        addToTopic log ud.topic INVALID_POINT_CLOUD msg) ∧
    ((∀ f, f ∈ pc.fields → f.name ≠ "x") →
      ud.geometry.positions.length = ud.geometry.itemCapacity →
      (updatePointCloudRenderable log ud pc).2.2 = none →
      ∀ i, i < (updatePointCloudRenderable log ud pc).2.1.geometry.positions.length →
      ∃ b c, (updatePointCloudRenderable log ud pc).2.1.geometry.positions.get? i =
        some (0, b, c)) ∧
    ((∀ f, f ∈ pc.fields → f.name ≠ "y") →
      ud.geometry.positions.length = ud.geometry.itemCapacity →
      (updatePointCloudRenderable log ud pc).2.2 = none →
      ∀ i, i < (updatePointCloudRenderable log ud pc).2.1.geometry.positions.length →
      ∃ a c, (updatePointCloudRenderable log ud pc).2.1.geometry.positions.get? i =
        some (a, 0, c)) ∧
    ((∀ f, f ∈ pc.fields → f.name ≠ "z") →
      ud.geometry.positions.length = ud.geometry.itemCapacity →
      (updatePointCloudRenderable log ud pc).2.2 = none →
      ∀ i, i < (updatePointCloudRenderable log ud pc).2.1.geometry.positions.length →
      ∃ a b, (updatePointCloudRenderable log ud pc).2.1.geometry.positions.get? i =
        some (a, b, 0)) := by
  refine ⟨?_, ?_, ?_, ?_⟩
  · intro hlt
    unfold updatePointCloudRenderable
    cases h1 : structuralValidationReason pc with
    | some msg => exact ⟨rfl, msg, rfl⟩
    | none =>
      cases h2 : decodeStage ud.settings pc with
      | error msg => simp only [h2]; exact ⟨rfl, msg, rfl⟩
      | ok readers =>
        obtain ⟨xR, yR, zR, cR⟩ := readers
        obtain ⟨s, hr, hcount, _, _, _⟩ := decodeStage_ok_inversion ud.settings pc xR yR zR cR h2
        exfalso
        have hx : s.xr.isSome = true → axisResolvable pc "x" = true := by
          intro hs
          rcases resolveReaders_ok_xr ud.settings.colorField pc.point_step s pc.fields
              emptySlots hr hs with hc | ⟨f, hmem, hname, hg⟩
          · simp [emptySlots] at hc
          · exact List.any_eq_true.mpr ⟨f, hmem, by simp [hname, hg]⟩
        have hy : s.yr.isSome = true → axisResolvable pc "y" = true := by
          intro hs
          rcases resolveReaders_ok_yr ud.settings.colorField pc.point_step s pc.fields
              emptySlots hr hs with hc | ⟨f, hmem, hname, hg⟩
          · simp [emptySlots] at hc
          · exact List.any_eq_true.mpr ⟨f, hmem, by simp [hname, hg]⟩
        have hz : s.zr.isSome = true → axisResolvable pc "z" = true := by
          intro hs
          rcases resolveReaders_ok_zr ud.settings.colorField pc.point_step s pc.fields
              emptySlots hr hs with hc | ⟨f, hmem, hname, hg⟩
          · simp [emptySlots] at hc
          · exact List.any_eq_true.mpr ⟨f, hmem, by simp [hname, hg]⟩
        have hbx : ((if s.xr.isSome then 1 else 0) : Nat) ≤
            (if axisResolvable pc "x" then 1 else 0) := by
          cases hxs : s.xr.isSome with
          | false => simp
          | true => rw [hx hxs]
        have hby : ((if s.yr.isSome then 1 else 0) : Nat) ≤
            (if axisResolvable pc "y" then 1 else 0) := by
          cases hys : s.yr.isSome with
          | false => simp
          | true => rw [hy hys]
        have hbz : ((if s.zr.isSome then 1 else 0) : Nat) ≤
            (if axisResolvable pc "z" then 1 else 0) := by
          cases hzs : s.zr.isSome with
          | false => simp
          | true => rw [hz hzs]
        have hge : 2 ≤ resolvableAxisCount pc := by
          unfold resolvableAxisCount
          omega
        omega
  · intro hnames hlen hok i hi
    obtain ⟨s, hr, hentry⟩ := update_success_positions log ud pc hlen hok
    have hnone : s.xr = none :=
      resolveReaders_xr_none ud.settings.colorField pc.point_step s pc.fields emptySlots
        hnames hr rfl
    exact ⟨s.yr.getD zeroReader pc.data (i * pc.point_step),
      s.zr.getD zeroReader pc.data (i * pc.point_step), by rw [hentry i hi, hnone]; rfl⟩
  · intro hnames hlen hok i hi
    obtain ⟨s, hr, hentry⟩ := update_success_positions log ud pc hlen hok
    have hnone : s.yr = none :=
      resolveReaders_yr_none ud.settings.colorField pc.point_step s pc.fields emptySlots
        hnames hr rfl
    exact ⟨s.xr.getD zeroReader pc.data (i * pc.point_step),
      s.zr.getD zeroReader pc.data (i * pc.point_step), by rw [hentry i hi, hnone]; rfl⟩
  · intro hnames hlen hok i hi
    obtain ⟨s, hr, hentry⟩ := update_success_positions log ud pc hlen hok
    have hnone : s.zr = none :=
      resolveReaders_zr_none ud.settings.colorField pc.point_step s pc.fields emptySlots
        hnames hr rfl
    exact ⟨s.xr.getD zeroReader pc.data (i * pc.point_step),
      s.yr.getD zeroReader pc.data (i * pc.point_step), by rw [hentry i hi, hnone]; rfl⟩

theorem c4_two_axes_required_and_absent_axis_zero_witness :
    ((updatePointCloudRenderable [] udPrev pcOnlyX).2.2 = some JsError.typeError ∧
      ∃ msg, (updatePointCloudRenderable [] udPrev pcOnlyX).1 =
        addToTopic [] udPrev.topic INVALID_POINT_CLOUD msg) ∧
    (∃ b c, (updatePointCloudRenderable [] udPrev pcYZOnly).2.1.geometry.positions.get? 0 =
      some (0, b, c)) ∧
    (∃ a c, (updatePointCloudRenderable [] udPrev pcXZOnly).2.1.geometry.positions.get? 0 =
      some (a, 0, c)) ∧
    (∃ a b, (updatePointCloudRenderable [] udPrev pcXYOnly).2.1.geometry.positions.get? 0 =
      some (a, b, 0)) :=
  ⟨(c4_two_axes_required_and_absent_axis_zero [] udPrev pcOnlyX).1 (by decide),
   (c4_two_axes_required_and_absent_axis_zero [] udPrev pcYZOnly).2.1 (by decide) (by decide)
     (by decide) 0 (by decide),
   (c4_two_axes_required_and_absent_axis_zero [] udPrev pcXZOnly).2.2.1 (by decide) (by decide)
     (by decide) 0 (by decide),
   (c4_two_axes_required_and_absent_axis_zero [] udPrev pcXYOnly).2.2.2 (by decide) (by decide)
     (by decide) 0 (by decide)⟩

/-! ## C7 -/

theorem update_success_geometry (log : List Diag) (ud : PCUserData) (pc : PointCloud2) :
    (updatePointCloudRenderable log ud pc).2.2 = none →
    (updatePointCloudRenderable log ud pc).2.1.geometry.itemCapacity =
      pc.data.length / pc.point_step ∧
    (ud.geometry.itemCapacity = pc.data.length / pc.point_step →
      (updatePointCloudRenderable log ud pc).2.1.geometry.allocId = ud.geometry.allocId) ∧
    (ud.geometry.itemCapacity ≠ pc.data.length / pc.point_step →
      (updatePointCloudRenderable log ud pc).2.1.geometry.allocId = ud.geometry.allocId + 1) := by
  unfold updatePointCloudRenderable
  cases h1 : structuralValidationReason pc with
  | some msg => intro hok; exact absurd hok (by simp [invalidPointCloudError])
  | none =>
    cases h2 : decodeStage ud.settings pc with
    | error msg =>
      simp only [h2]
      intro hok
      exact absurd hok (by simp [invalidPointCloudError])
    | ok readers =>
      obtain ⟨xR, yR, zR, cR⟩ := readers
      simp only [h2]
      intro _
      refine ⟨?_, ?_, ?_⟩
      · rw [writePoints_itemCapacity, resize_itemCapacity]
      · intro he
        rw [writePoints_allocId, resize_allocId_of_eq ud.geometry _ he]
      · intro he
        rw [writePoints_allocId, resize_allocId_of_ne ud.geometry _ he]

/-- C7: each topic maps to at most one point-cloud renderable.  On a
message for an already-registered topic the identical renderable and
geometry object are reused (same object identity, no new allocation of
renderable ids, no new scene-graph child, material cache untouched) and,
when the update completes, the geometry is resized to exactly
`pointCount = trunc(data.length / point_step)`: an equal point count
leaves the backing buffers' identity unchanged (no reallocation), a
changed point count reallocates them.  On the first message for a topic
the renderable and a fresh geometry are allocated, registered in the
map, attached to the scene graph and the shared points material is
acquired. -/
theorem c7_renderable_and_buffer_reuse (st : PointCloudsState) (topic : String)
    (pc : PointCloud2) :
    (∀ r, lookupRenderable st topic = some r →
      (∃ r2, lookupRenderable (addPointCloud2Message st topic pc).1 topic = some r2 ∧
        r2.id = r.id ∧ r2.userData.geometry.geomId = r.userData.geometry.geomId ∧
        ((addPointCloud2Message st topic pc).2 = none →
          r2.userData.geometry.itemCapacity = pc.data.length / pc.point_step ∧
          (r.userData.geometry.itemCapacity = pc.data.length / pc.point_step →
            r2.userData.geometry.allocId = r.userData.geometry.allocId) ∧
          (r.userData.geometry.itemCapacity ≠ pc.data.length / pc.point_step →
            r2.userData.geometry.allocId = r.userData.geometry.allocId + 1))) ∧
      (addPointCloud2Message st topic pc).1.nextId = st.nextId ∧
      (addPointCloud2Message st topic pc).1.children = st.children ∧
      (addPointCloud2Message st topic pc).1.materialCache = st.materialCache) ∧
    (lookupRenderable st topic = none →
      ∃ r2, lookupRenderable (addPointCloud2Message st topic pc).1 topic = some r2 ∧
        r2.id = st.nextId ∧ r2.userData.geometry.geomId = st.nextId + 1 ∧
        (addPointCloud2Message st topic pc).1.children = st.children ++ [st.nextId] ∧
        (addPointCloud2Message st topic pc).1.nextId = st.nextId + 2 ∧
        (addPointCloud2Message st topic pc).1.materialCache =
          acquireMaterial st.materialCache
            (newPointCloudRenderable st topic pc).userData.pointsMaterialId) := by
  constructor
  · intro r h
    unfold addPointCloud2Message
    simp only [h]
    have h' : st.pointCloudsByTopic.lookup topic = some r := h
    refine ⟨⟨_, lookup_setRenderable _ topic _ _ h', rfl, ?_, ?_⟩, trivial, trivial, trivial⟩
    · exact (update_preserves_fields st.errors r.userData pc).2.2.1
    · intro hok
      exact update_success_geometry st.errors r.userData pc hok
  · intro h
    unfold addPointCloud2Message
    simp only [h]
    have h' : st.pointCloudsByTopic.lookup topic = none := h
    have hm : (st.pointCloudsByTopic ++ [(topic, newPointCloudRenderable st topic pc)]).lookup
        topic = some (newPointCloudRenderable st topic pc) := by
      rw [lookup_append_of_none _ _ _ h']
      simp [lookup_cons_pair]
    refine ⟨_, lookup_setRenderable _ topic _ _ hm, rfl, ?_, rfl, trivial, trivial⟩
    exact (update_preserves_fields st.errors
      (newPointCloudRenderable st topic pc).userData pc).2.2.1

theorem c7_renderable_and_buffer_reuse_witness :
    (∃ r2, lookupRenderable (addPointCloud2Message stOne "/points" pcXYOnly).1 "/points" =
        some r2 ∧ r2.id = rOne.id ∧
        r2.userData.geometry.geomId = rOne.userData.geometry.geomId ∧
        ((addPointCloud2Message stOne "/points" pcXYOnly).2 = none →
          r2.userData.geometry.itemCapacity = pcXYOnly.data.length / pcXYOnly.point_step ∧
          (rOne.userData.geometry.itemCapacity = pcXYOnly.data.length / pcXYOnly.point_step →
            r2.userData.geometry.allocId = rOne.userData.geometry.allocId) ∧
          (rOne.userData.geometry.itemCapacity ≠ pcXYOnly.data.length / pcXYOnly.point_step →
            r2.userData.geometry.allocId = rOne.userData.geometry.allocId + 1))) ∧
    (addPointCloud2Message stOne "/points" pcXYOnly).2 = none ∧
    (∃ r2, lookupRenderable (addPointCloud2Message stOne "/new" pcXYOnly).1 "/new" = some r2 ∧
      r2.id = stOne.nextId ∧ r2.userData.geometry.geomId = stOne.nextId + 1 ∧
      (addPointCloud2Message stOne "/new" pcXYOnly).1.children = stOne.children ++
        [stOne.nextId] ∧
      (addPointCloud2Message stOne "/new" pcXYOnly).1.nextId = stOne.nextId + 2 ∧
      (addPointCloud2Message stOne "/new" pcXYOnly).1.materialCache =
        acquireMaterial stOne.materialCache
          (newPointCloudRenderable stOne "/new" pcXYOnly).userData.pointsMaterialId) :=
  ⟨((c7_renderable_and_buffer_reuse stOne "/points" pcXYOnly).1 rOne rfl).1,
   by decide,
   (c7_renderable_and_buffer_reuse stOne "/new" pcXYOnly).2 rfl⟩
